import Mathlib

/-!
# rocksgo: the scalar conversions and the option setters

A shallow embedding of `conv.go` and `options.go`.  The native engine is an
external collaborator: a call into it is recorded, with the arguments it was
given, in a trace (`World`).  A Go run-time panic is an explicit outcome.
-/

namespace Rocksgo

set_option linter.dupNamespace false

/-! ## Machine integers -/

/-- The host platform: Go's `int` and `uint`, and C's `size_t`, are one machine
word wide.  C's `int` is 32 bits wide on both. -/
inductive Arch where
  | bits32
  | bits64
  deriving DecidableEq, Repr

/-- Width in bits of Go's `int`, `uint` and of C's `size_t`. -/
def Arch.bits : Arch → Nat
  | .bits32 => 32
  | .bits64 => 64

/-- The value `v` is a value of Go's `int` on the platform `a`. -/
def InGoInt (a : Arch) (v : Int) : Prop :=
  -(2 : Int) ^ (a.bits - 1) ≤ v ∧ v < (2 : Int) ^ (a.bits - 1)

/-- The value `v` is a value of Go's `uint` on the platform `a`. -/
def InGoUint (a : Arch) (v : Nat) : Prop :=
  v < 2 ^ a.bits

instance (a : Arch) (v : Int) : Decidable (InGoInt a v) := by
  unfold InGoInt; infer_instance

instance (a : Arch) (v : Nat) : Decidable (InGoUint a v) := by
  unfold InGoUint; infer_instance

/-- Conversion of an integer to a signed type of `bits` bits: the low `bits`
bits, read in two's complement. -/
def wrapSigned (bits : Nat) (v : Int) : Int :=
  (v + 2 ^ (bits - 1)) % 2 ^ bits - 2 ^ (bits - 1)

/-- Conversion of an integer to an unsigned type of `bits` bits: the low
`bits` bits. -/
def wrapUnsigned (bits : Nat) (v : Int) : Nat :=
  (v % 2 ^ bits).toNat

/-- The conversion `C.int(v)`. -/
def toCInt (v : Int) : Int := wrapSigned 32 v

/-- The conversion `C.size_t(v)`. -/
def toCSizeT (a : Arch) (v : Int) : Nat := wrapUnsigned a.bits v

/-- The conversion `C.uchar(v)`. -/
def toCUchar (v : Int) : Nat := wrapUnsigned 8 v

/-! ## conv.go -/

/-- Go: `func boolToUchar(b bool) C.uchar`. -/
def boolToUchar (b : Bool) : Nat :=
  let uc := toCUchar 0
  if b then toCUchar 1 else uc

/-- Go: `func ucharToBool(uc C.uchar) bool`. -/
def ucharToBool (uc : Nat) : Bool :=
  if uc = toCUchar 0 then false else true

/-- Go: `func btoi(b bool) int`. -/
def btoi (b : Bool) : Int :=
  if b then 1 else 0

/-! ## options.go: the enumerations -/

/-- Go: `type CompressionType uint`. -/
structure CompressionType where
  val : Nat
  deriving DecidableEq, Repr

def NoCompression : CompressionType := ⟨0⟩
def SnappyCompression : CompressionType := ⟨1⟩
def ZlibCompression : CompressionType := ⟨2⟩
def BZip2Compression : CompressionType := ⟨3⟩

/-- Go: `type CompactionStyle uint`. -/
structure CompactionStyle where
  val : Nat
  deriving DecidableEq, Repr

def LevelCompactionStyle : CompactionStyle := ⟨0⟩
def UniversalCompactionStyle : CompactionStyle := ⟨1⟩

/-- Go: `type CompactionAccessPattern uint`. -/
structure CompactionAccessPattern where
  val : Nat
  deriving DecidableEq, Repr

def NoneCompactionAccessPattern : CompactionAccessPattern := ⟨0⟩
def NormalCompactionAccessPattern : CompactionAccessPattern := ⟨1⟩
def SequentialCompactionAccessPattern : CompactionAccessPattern := ⟨2⟩
def WillneedCompactionAccessPattern : CompactionAccessPattern := ⟨3⟩

/-- Go: `type InfoLogLevel uint`. -/
structure InfoLogLevel where
  val : Nat
  deriving DecidableEq, Repr

def DebugInfoLogLevel : InfoLogLevel := ⟨0⟩
def InfoInfoLogLevel : InfoLogLevel := ⟨1⟩
def WarnInfoLogLevel : InfoLogLevel := ⟨2⟩
def ErrorInfoLogLevel : InfoLogLevel := ⟨3⟩
def FatalInfoLogLevel : InfoLogLevel := ⟨4⟩

/-- The declared constants of `CompressionType`, in declaration order. -/
def compressionTypes : List CompressionType :=
  [NoCompression, SnappyCompression, ZlibCompression, BZip2Compression]

/-- The declared constants of `CompactionStyle`, in declaration order. -/
def compactionStyles : List CompactionStyle :=
  [LevelCompactionStyle, UniversalCompactionStyle]

/-- The declared constants of `CompactionAccessPattern`, in declaration order. -/
def compactionAccessPatterns : List CompactionAccessPattern :=
  [NoneCompactionAccessPattern, NormalCompactionAccessPattern,
   SequentialCompactionAccessPattern, WillneedCompactionAccessPattern]

/-- The declared constants of `InfoLogLevel`, in declaration order. -/
def infoLogLevels : List InfoLogLevel :=
  [DebugInfoLogLevel, InfoInfoLogLevel, WarnInfoLogLevel, ErrorInfoLogLevel,
   FatalInfoLogLevel]

/-! ## The native engine, as the host layer sees it -/

/-- The functions of `rocksdb/c.h` that `options.go` calls. -/
inductive NativeFn where
  | rocksdb_options_create
  | rocksdb_readoptions_create
  | rocksdb_writeoptions_create
  | rocksdb_options_destroy
  | rocksdb_options_set_comparator
  | rocksdb_options_set_create_if_missing
  | rocksdb_options_set_error_if_exists
  | rocksdb_options_set_paranoid_checks
  | rocksdb_options_set_env
  | rocksdb_options_set_info_log
  | rocksdb_options_set_filter_policy
  | rocksdb_options_set_info_log_level
  | rocksdb_options_set_write_buffer_size
  | rocksdb_options_set_max_write_buffer_number
  | rocksdb_options_set_min_write_buffer_number_to_merge
  | rocksdb_options_set_max_open_files
  | rocksdb_options_set_cache
  | rocksdb_options_set_cache_compressed
  | rocksdb_options_set_block_size
  | rocksdb_options_set_block_restart_interval
  | rocksdb_options_set_compression
  | rocksdb_options_set_compression_per_level
  | rocksdb_options_set_min_level_to_compress
  | rocksdb_options_set_whole_key_filtering
  | rocksdb_options_set_num_levels
  | rocksdb_options_set_level0_file_num_compaction_trigger
  | rocksdb_options_set_level0_slowdown_writes_trigger
  | rocksdb_options_set_level0_stop_writes_trigger
  | rocksdb_options_set_max_mem_compaction_level
  | rocksdb_options_set_target_file_size_base
  | rocksdb_options_set_target_file_size_multiplier
  | rocksdb_options_set_max_bytes_for_level_base
  | rocksdb_options_set_max_bytes_for_level_multiplier
  | rocksdb_options_set_max_bytes_for_level_multiplier_additional
  | rocksdb_options_set_expanded_compaction_factor
  | rocksdb_options_set_source_compaction_factor
  | rocksdb_options_set_max_grandparent_overlap_factor
  | rocksdb_options_set_disable_data_sync
  | rocksdb_options_set_use_fsync
  | rocksdb_options_set_db_stats_log_interval
  | rocksdb_options_set_db_log_dir
  | rocksdb_options_set_wal_dir
  | rocksdb_options_set_disable_seek_compaction
  | rocksdb_options_set_delete_obsolete_files_period_micros
  | rocksdb_options_set_max_background_compactions
  | rocksdb_options_set_max_background_flushes
  | rocksdb_options_set_max_log_file_size
  | rocksdb_options_set_log_file_time_to_roll
  | rocksdb_options_set_keep_log_file_num
  | rocksdb_options_set_soft_rate_limit
  | rocksdb_options_set_hard_rate_limit
  | rocksdb_options_set_rate_limit_delay_max_milliseconds
  | rocksdb_options_set_max_manifest_file_size
  | rocksdb_options_set_no_block_cache
  | rocksdb_options_set_table_cache_numshardbits
  | rocksdb_options_set_table_cache_remove_scan_count_limit
  | rocksdb_options_set_arena_block_size
  | rocksdb_options_set_disable_auto_compactions
  | rocksdb_options_set_WAL_ttl_seconds
  | rocksdb_options_set_WAL_size_limit_MB
  | rocksdb_options_set_manifest_preallocation_size
  | rocksdb_options_set_purge_redundant_kvs_while_flush
  | rocksdb_options_set_allow_os_buffer
  | rocksdb_options_set_allow_mmap_reads
  | rocksdb_options_set_allow_mmap_writes
  | rocksdb_options_set_is_fd_close_on_exec
  | rocksdb_options_set_skip_log_error_on_recovery
  | rocksdb_options_set_stats_dump_period_sec
  | rocksdb_options_set_block_size_deviation
  | rocksdb_options_set_advise_random_on_open
  | rocksdb_options_set_access_hint_on_compaction_start
  | rocksdb_options_set_use_adaptive_mutex
  | rocksdb_options_set_bytes_per_sync
  | rocksdb_options_set_compaction_style
  | rocksdb_options_set_universal_compaction_options
  | rocksdb_options_set_verify_checksums_in_compaction
  | rocksdb_options_set_filter_deletes
  | rocksdb_options_set_max_sequential_skip_in_iterations
  | rocksdb_options_set_inplace_update_support
  | rocksdb_options_set_inplace_update_num_locks
  | rocksdb_options_set_memtable_prefix_bloom_bits
  | rocksdb_options_set_memtable_prefix_bloom_probes
  | rocksdb_options_set_bloom_locality
  | rocksdb_options_set_max_successive_merges
  | rocksdb_options_set_min_partial_merge_operands
  | rocksdb_options_set_allow_thread_local
  | rocksdb_options_enable_statistics
  | rocksdb_options_prepare_for_bulk_load
  | rocksdb_options_set_memtable_vector_rep
  | rocksdb_options_set_hash_skip_list_rep
  | rocksdb_options_set_hash_link_list_rep
  | rocksdb_options_set_plain_table_factory
  | rocksdb_readoptions_destroy
  | rocksdb_readoptions_set_verify_checksums
  | rocksdb_readoptions_set_fill_cache
  | rocksdb_readoptions_set_snapshot
  | rocksdb_writeoptions_destroy
  | rocksdb_writeoptions_set_sync
  deriving DecidableEq, Repr

/-- A Go `float64`, by its IEEE 754 bit pattern; the conversion `C.double(v)`
keeps the bit pattern. -/
structure Float64 where
  bits : Nat
  deriving DecidableEq, Repr

/-- An argument handed to a native function, tagged with its C type. -/
inductive CVal where
  /-- An opaque native pointer; `0` is the null pointer. -/
  | ptr (p : Nat)
  /-- An `unsigned char`. -/
  | uchar (v : Nat)
  /-- An `int`. -/
  | int (v : Int)
  /-- A `size_t`. -/
  | size_t (v : Nat)
  /-- An `int*` to the first element of an array with these elements. -/
  | intArray (elems : List Int)
  /-- A `char*`: the address it holds. -/
  | charPtr (addr : Nat)
  /-- An `unsigned int`. -/
  | uint (v : Nat)
  /-- A `uint32_t`. -/
  | uint32 (v : Nat)
  /-- A `uint64_t`. -/
  | uint64 (v : Nat)
  /-- An `int32_t`. -/
  | int32 (v : Int)
  /-- A `double`, by its IEEE 754 bit pattern. -/
  | double (v : Float64)
  deriving DecidableEq, Repr

/-- One call into the native engine. -/
structure NativeCall where
  fn : NativeFn
  args : List CVal
  deriving DecidableEq, Repr

/-- The calls made into the native engine so far, oldest first. -/
abbrev World := List NativeCall

/-- Performs the native call `fn(args)`. -/
def C.call (fn : NativeFn) (args : List CVal) (w : World) : World :=
  w ++ [⟨fn, args⟩]

/-- What the native object behind the pointer `opt` holds for the setter `fn`:
the arguments that the most recent call of `fn` on `opt` was given. -/
def World.current (w : World) (fn : NativeFn) (opt : Nat) : Option (List CVal) :=
  match w.reverse.find? (fun c => c.fn = fn ∧ c.args.head? = some (.ptr opt)) with
  | some c => some c.args.tail
  | none => none

/-- A Go run-time panic. -/
inductive Panic where
  | nilDereference
  | indexOutOfRange
  deriving DecidableEq, Repr

/-- How a call of a method that can panic ends; either way with the native
calls made up to that point. -/
inductive Outcome where
  | done (w : World)
  | panicked (p : Panic) (w : World)
  deriving DecidableEq, Repr

/-! ## options.go: the handles -/

/-- Go: `type Options struct { Opt *C.rocksdb_options_t }`. -/
structure Options where
  Opt : Nat
  deriving DecidableEq, Repr

/-- Go: `type ReadOptions struct { Opt *C.rocksdb_readoptions_t }`. -/
structure ReadOptions where
  Opt : Nat
  deriving DecidableEq, Repr

/-- Go: `type WriteOptions struct { Opt *C.rocksdb_writeoptions_t }`. -/
structure WriteOptions where
  Opt : Nat
  deriving DecidableEq, Repr

/-- Modelled from the spec: the type `Cache` is declared outside `options.go`.
A resource handle that wraps one native pointer, which `options.go` reads as
the field `Cache`. -/
structure Cache where
  Cache : Nat
  deriving DecidableEq, Repr

/-- Modelled from the spec: the type `Env` is declared outside `options.go`.
A resource handle that wraps one native pointer, which `options.go` reads as
the field `Env`. -/
structure Env where
  Env : Nat
  deriving DecidableEq, Repr

/-- Modelled from the spec: the type `FilterPolicy` is declared outside
`options.go`.  A resource handle that wraps one native pointer, which
`options.go` reads as the field `Policy`. -/
structure FilterPolicy where
  Policy : Nat
  deriving DecidableEq, Repr

/-- Modelled from the spec: the type `Snapshot` is declared outside `options.go`.
A resource handle that wraps one native pointer, which `options.go` reads as
the field `snap`. -/
structure Snapshot where
  snap : Nat
  deriving DecidableEq, Repr

/-- Modelled from the spec: the type `UniversalCompactionOptions` is declared
outside `options.go`.  A resource handle that wraps one native pointer, which
`options.go` reads as the field `c`. -/
structure UniversalCompactionOptions where
  c : Nat
  deriving DecidableEq, Repr

/-! ## options.go: the setters

A method is embedded for a non-nil receiver. -/

/-! ### Boolean setters -/

/-- Go: `func (self *Options) SetCreateIfMissing`: `C.rocksdb_options_set_create_if_missing(self.Opt, boolToUchar(value))`. -/
def Options.SetCreateIfMissing (self : Options) (value : Bool) (w : World) : World :=
  C.call .rocksdb_options_set_create_if_missing [.ptr self.Opt, .uchar (boolToUchar value)] w

/-- Go: `func (self *Options) SetErrorIfExists`: `C.rocksdb_options_set_error_if_exists(self.Opt, boolToUchar(value))`. -/
def Options.SetErrorIfExists (self : Options) (value : Bool) (w : World) : World :=
  C.call .rocksdb_options_set_error_if_exists [.ptr self.Opt, .uchar (boolToUchar value)] w

/-- Go: `func (self *Options) SetParanoidChecks`: `C.rocksdb_options_set_paranoid_checks(self.Opt, boolToUchar(value))`. -/
def Options.SetParanoidChecks (self : Options) (value : Bool) (w : World) : World :=
  C.call .rocksdb_options_set_paranoid_checks [.ptr self.Opt, .uchar (boolToUchar value)] w

/-- Go: `func (self *Options) SetWholeKeyFiltering`: `C.rocksdb_options_set_whole_key_filtering(self.Opt, boolToUchar(value))`. -/
def Options.SetWholeKeyFiltering (self : Options) (value : Bool) (w : World) : World :=
  C.call .rocksdb_options_set_whole_key_filtering [.ptr self.Opt, .uchar (boolToUchar value)] w

/-- Go: `func (self *Options) SetDisableDataSync`: `C.rocksdb_options_set_disable_data_sync(self.Opt, C.int(btoi(value)))`. -/
def Options.SetDisableDataSync (self : Options) (value : Bool) (w : World) : World :=
  C.call .rocksdb_options_set_disable_data_sync [.ptr self.Opt, .int (toCInt (btoi value))] w

/-- Go: `func (self *Options) SetUseFsync`: `C.rocksdb_options_set_use_fsync(self.Opt, C.int(btoi(value)))`. -/
def Options.SetUseFsync (self : Options) (value : Bool) (w : World) : World :=
  C.call .rocksdb_options_set_use_fsync [.ptr self.Opt, .int (toCInt (btoi value))] w

/-- Go: `func (self *Options) SetDisableSeekCompaction`: `C.rocksdb_options_set_disable_seek_compaction(self.Opt, C.int(btoi(value)))`. -/
def Options.SetDisableSeekCompaction (self : Options) (value : Bool) (w : World) : World :=
  C.call .rocksdb_options_set_disable_seek_compaction [.ptr self.Opt, .int (toCInt (btoi value))] w

/-- Go: `func (self *Options) SetNoBlockCache`: `C.rocksdb_options_set_no_block_cache(self.Opt, boolToUchar(value))`. -/
def Options.SetNoBlockCache (self : Options) (value : Bool) (w : World) : World :=
  C.call .rocksdb_options_set_no_block_cache [.ptr self.Opt, .uchar (boolToUchar value)] w

/-- Go: `func (self *Options) SetDisableAutoCompactions`: `C.rocksdb_options_set_disable_auto_compactions(self.Opt, C.int(btoi(value)))`. -/
def Options.SetDisableAutoCompactions (self : Options) (value : Bool) (w : World) : World :=
  C.call .rocksdb_options_set_disable_auto_compactions [.ptr self.Opt, .int (toCInt (btoi value))] w

/-- Go: `func (self *Options) SetPurgeRedundantKvsWhileFlush`: `C.rocksdb_options_set_purge_redundant_kvs_while_flush(self.Opt, boolToUchar(value))`. -/
def Options.SetPurgeRedundantKvsWhileFlush (self : Options) (value : Bool) (w : World) : World :=
  C.call .rocksdb_options_set_purge_redundant_kvs_while_flush [.ptr self.Opt, .uchar (boolToUchar value)] w

/-- Go: `func (self *Options) SetAllowOsBuffer`: `C.rocksdb_options_set_allow_os_buffer(self.Opt, boolToUchar(value))`. -/
def Options.SetAllowOsBuffer (self : Options) (value : Bool) (w : World) : World :=
  C.call .rocksdb_options_set_allow_os_buffer [.ptr self.Opt, .uchar (boolToUchar value)] w

/-- Go: `func (self *Options) SetAllowMmapReads`: `C.rocksdb_options_set_allow_mmap_reads(self.Opt, boolToUchar(value))`. -/
def Options.SetAllowMmapReads (self : Options) (value : Bool) (w : World) : World :=
  C.call .rocksdb_options_set_allow_mmap_reads [.ptr self.Opt, .uchar (boolToUchar value)] w

/-- Go: `func (self *Options) SetAllowMmapWrites`: `C.rocksdb_options_set_allow_mmap_writes(self.Opt, boolToUchar(value))`. -/
def Options.SetAllowMmapWrites (self : Options) (value : Bool) (w : World) : World :=
  C.call .rocksdb_options_set_allow_mmap_writes [.ptr self.Opt, .uchar (boolToUchar value)] w

/-- Go: `func (self *Options) SetIsFdCloseOnExec`: `C.rocksdb_options_set_is_fd_close_on_exec(self.Opt, boolToUchar(value))`. -/
def Options.SetIsFdCloseOnExec (self : Options) (value : Bool) (w : World) : World :=
  C.call .rocksdb_options_set_is_fd_close_on_exec [.ptr self.Opt, .uchar (boolToUchar value)] w

/-- Go: `func (self *Options) SetSkipLogErrorOnRecovery`: `C.rocksdb_options_set_skip_log_error_on_recovery(self.Opt, boolToUchar(value))`. -/
def Options.SetSkipLogErrorOnRecovery (self : Options) (value : Bool) (w : World) : World :=
  C.call .rocksdb_options_set_skip_log_error_on_recovery [.ptr self.Opt, .uchar (boolToUchar value)] w

/-- Go: `func (self *Options) SetAdviseRandomOnOpen`: `C.rocksdb_options_set_advise_random_on_open(self.Opt, boolToUchar(value))`. -/
def Options.SetAdviseRandomOnOpen (self : Options) (value : Bool) (w : World) : World :=
  C.call .rocksdb_options_set_advise_random_on_open [.ptr self.Opt, .uchar (boolToUchar value)] w

/-- Go: `func (self *Options) SetUseAdaptiveMutex`: `C.rocksdb_options_set_use_adaptive_mutex(self.Opt, boolToUchar(value))`. -/
def Options.SetUseAdaptiveMutex (self : Options) (value : Bool) (w : World) : World :=
  C.call .rocksdb_options_set_use_adaptive_mutex [.ptr self.Opt, .uchar (boolToUchar value)] w

/-- Go: `func (self *Options) SetVerifyChecksumsInCompaction`: `C.rocksdb_options_set_verify_checksums_in_compaction(self.Opt, boolToUchar(value))`. -/
def Options.SetVerifyChecksumsInCompaction (self : Options) (value : Bool) (w : World) : World :=
  C.call .rocksdb_options_set_verify_checksums_in_compaction [.ptr self.Opt, .uchar (boolToUchar value)] w

/-- Go: `func (self *Options) SetFilterDeletes`: `C.rocksdb_options_set_filter_deletes(self.Opt, boolToUchar(value))`. -/
def Options.SetFilterDeletes (self : Options) (value : Bool) (w : World) : World :=
  C.call .rocksdb_options_set_filter_deletes [.ptr self.Opt, .uchar (boolToUchar value)] w

/-- Go: `func (self *Options) SetInplaceUpdateSupport`: `C.rocksdb_options_set_inplace_update_support(self.Opt, boolToUchar(value))`. -/
def Options.SetInplaceUpdateSupport (self : Options) (value : Bool) (w : World) : World :=
  C.call .rocksdb_options_set_inplace_update_support [.ptr self.Opt, .uchar (boolToUchar value)] w

/-- Go: `func (self *Options) SetAllowThreadLocal`: `C.rocksdb_options_set_allow_thread_local(self.Opt, boolToUchar(value))`. -/
def Options.SetAllowThreadLocal (self : Options) (value : Bool) (w : World) : World :=
  C.call .rocksdb_options_set_allow_thread_local [.ptr self.Opt, .uchar (boolToUchar value)] w

/-- Go: `func (ro *ReadOptions) SetVerifyChecksums`: `C.rocksdb_readoptions_set_verify_checksums(ro.Opt, boolToUchar(b))`. -/
def ReadOptions.SetVerifyChecksums (ro : ReadOptions) (b : Bool) (w : World) : World :=
  C.call .rocksdb_readoptions_set_verify_checksums [.ptr ro.Opt, .uchar (boolToUchar b)] w

/-- Go: `func (ro *ReadOptions) SetFillCache`: `C.rocksdb_readoptions_set_fill_cache(ro.Opt, boolToUchar(b))`. -/
def ReadOptions.SetFillCache (ro : ReadOptions) (b : Bool) (w : World) : World :=
  C.call .rocksdb_readoptions_set_fill_cache [.ptr ro.Opt, .uchar (boolToUchar b)] w

/-- Go: `func (wo *WriteOptions) SetSync`: `C.rocksdb_writeoptions_set_sync(wo.Opt, boolToUchar(b))`. -/
def WriteOptions.SetSync (wo : WriteOptions) (b : Bool) (w : World) : World :=
  C.call .rocksdb_writeoptions_set_sync [.ptr wo.Opt, .uchar (boolToUchar b)] w

/-! ### Integer setters that convert with `C.int` -/

/-- Go: `func (self *Options) SetMaxWriteBufferNumber`: `C.rocksdb_options_set_max_write_buffer_number(self.Opt, C.int(value))`. -/
def Options.SetMaxWriteBufferNumber (self : Options) (value : Int) (w : World) : World :=
  C.call .rocksdb_options_set_max_write_buffer_number [.ptr self.Opt, .int (toCInt value)] w

/-- Go: `func (self *Options) SetMinWriteBufferNumberToMerge`: `C.rocksdb_options_set_min_write_buffer_number_to_merge(self.Opt, C.int(value))`. -/
def Options.SetMinWriteBufferNumberToMerge (self : Options) (value : Int) (w : World) : World :=
  C.call .rocksdb_options_set_min_write_buffer_number_to_merge [.ptr self.Opt, .int (toCInt value)] w

/-- Go: `func (self *Options) SetMaxOpenFiles`: `C.rocksdb_options_set_max_open_files(self.Opt, C.int(value))`. -/
def Options.SetMaxOpenFiles (self : Options) (value : Int) (w : World) : World :=
  C.call .rocksdb_options_set_max_open_files [.ptr self.Opt, .int (toCInt value)] w

/-- Go: `func (self *Options) SetBlockRestartInterval`: `C.rocksdb_options_set_block_restart_interval(self.Opt, C.int(value))`. -/
def Options.SetBlockRestartInterval (self : Options) (value : Int) (w : World) : World :=
  C.call .rocksdb_options_set_block_restart_interval [.ptr self.Opt, .int (toCInt value)] w

/-- Go: `func (self *Options) SetMinLevelToCompress`: `C.rocksdb_options_set_min_level_to_compress(self.Opt, C.int(value))`. -/
def Options.SetMinLevelToCompress (self : Options) (value : Int) (w : World) : World :=
  C.call .rocksdb_options_set_min_level_to_compress [.ptr self.Opt, .int (toCInt value)] w

/-- Go: `func (self *Options) SetNumLevels`: `C.rocksdb_options_set_num_levels(self.Opt, C.int(value))`. -/
def Options.SetNumLevels (self : Options) (value : Int) (w : World) : World :=
  C.call .rocksdb_options_set_num_levels [.ptr self.Opt, .int (toCInt value)] w

/-- Go: `func (self *Options) SetLevel0FileNumCompactionTrigger`: `C.rocksdb_options_set_level0_file_num_compaction_trigger(self.Opt, C.int(value))`. -/
def Options.SetLevel0FileNumCompactionTrigger (self : Options) (value : Int) (w : World) : World :=
  C.call .rocksdb_options_set_level0_file_num_compaction_trigger [.ptr self.Opt, .int (toCInt value)] w

/-- Go: `func (self *Options) SetLevel0SlowdownWritesTrigger`: `C.rocksdb_options_set_level0_slowdown_writes_trigger(self.Opt, C.int(value))`. -/
def Options.SetLevel0SlowdownWritesTrigger (self : Options) (value : Int) (w : World) : World :=
  C.call .rocksdb_options_set_level0_slowdown_writes_trigger [.ptr self.Opt, .int (toCInt value)] w

/-- Go: `func (self *Options) SetLevel0StopWritesTrigger`: `C.rocksdb_options_set_level0_stop_writes_trigger(self.Opt, C.int(value))`. -/
def Options.SetLevel0StopWritesTrigger (self : Options) (value : Int) (w : World) : World :=
  C.call .rocksdb_options_set_level0_stop_writes_trigger [.ptr self.Opt, .int (toCInt value)] w

/-- Go: `func (self *Options) SetMaxMemCompactionLevel`: `C.rocksdb_options_set_max_mem_compaction_level(self.Opt, C.int(value))`. -/
def Options.SetMaxMemCompactionLevel (self : Options) (value : Int) (w : World) : World :=
  C.call .rocksdb_options_set_max_mem_compaction_level [.ptr self.Opt, .int (toCInt value)] w

/-- Go: `func (self *Options) SetTargetFileSizeMultiplier`: `C.rocksdb_options_set_target_file_size_multiplier(self.Opt, C.int(value))`. -/
def Options.SetTargetFileSizeMultiplier (self : Options) (value : Int) (w : World) : World :=
  C.call .rocksdb_options_set_target_file_size_multiplier [.ptr self.Opt, .int (toCInt value)] w

/-- Go: `func (self *Options) SetMaxBytesForLevelMultiplier`: `C.rocksdb_options_set_max_bytes_for_level_multiplier(self.Opt, C.int(value))`. -/
def Options.SetMaxBytesForLevelMultiplier (self : Options) (value : Int) (w : World) : World :=
  C.call .rocksdb_options_set_max_bytes_for_level_multiplier [.ptr self.Opt, .int (toCInt value)] w

/-- Go: `func (self *Options) SetExpandedCompactionFactor`: `C.rocksdb_options_set_expanded_compaction_factor(self.Opt, C.int(value))`. -/
def Options.SetExpandedCompactionFactor (self : Options) (value : Int) (w : World) : World :=
  C.call .rocksdb_options_set_expanded_compaction_factor [.ptr self.Opt, .int (toCInt value)] w

/-- Go: `func (self *Options) SetSourceCompactionFactor`: `C.rocksdb_options_set_source_compaction_factor(self.Opt, C.int(value))`. -/
def Options.SetSourceCompactionFactor (self : Options) (value : Int) (w : World) : World :=
  C.call .rocksdb_options_set_source_compaction_factor [.ptr self.Opt, .int (toCInt value)] w

/-- Go: `func (self *Options) SetMaxGrandparentOverlapFactor`: `C.rocksdb_options_set_max_grandparent_overlap_factor(self.Opt, C.int(value))`. -/
def Options.SetMaxGrandparentOverlapFactor (self : Options) (value : Int) (w : World) : World :=
  C.call .rocksdb_options_set_max_grandparent_overlap_factor [.ptr self.Opt, .int (toCInt value)] w

/-- Go: `func (self *Options) SetDbStatsLogInterval`: `C.rocksdb_options_set_db_stats_log_interval(self.Opt, C.int(value))`. -/
def Options.SetDbStatsLogInterval (self : Options) (value : Int) (w : World) : World :=
  C.call .rocksdb_options_set_db_stats_log_interval [.ptr self.Opt, .int (toCInt value)] w

/-- Go: `func (self *Options) SetMaxBackgroundCompactions`: `C.rocksdb_options_set_max_background_compactions(self.Opt, C.int(value))`. -/
def Options.SetMaxBackgroundCompactions (self : Options) (value : Int) (w : World) : World :=
  C.call .rocksdb_options_set_max_background_compactions [.ptr self.Opt, .int (toCInt value)] w

/-- Go: `func (self *Options) SetMaxBackgroundFlushes`: `C.rocksdb_options_set_max_background_flushes(self.Opt, C.int(value))`. -/
def Options.SetMaxBackgroundFlushes (self : Options) (value : Int) (w : World) : World :=
  C.call .rocksdb_options_set_max_background_flushes [.ptr self.Opt, .int (toCInt value)] w

/-- Go: `func (self *Options) SetTableCacheNumshardbits`: `C.rocksdb_options_set_table_cache_numshardbits(self.Opt, C.int(value))`. -/
def Options.SetTableCacheNumshardbits (self : Options) (value : Int) (w : World) : World :=
  C.call .rocksdb_options_set_table_cache_numshardbits [.ptr self.Opt, .int (toCInt value)] w

/-- Go: `func (self *Options) SetTableCacheRemoveScanCountLimit`: `C.rocksdb_options_set_table_cache_remove_scan_count_limit(self.Opt, C.int(value))`. -/
def Options.SetTableCacheRemoveScanCountLimit (self : Options) (value : Int) (w : World) : World :=
  C.call .rocksdb_options_set_table_cache_remove_scan_count_limit [.ptr self.Opt, .int (toCInt value)] w

/-- Go: `func (self *Options) SetBlockSizeDeviation`: `C.rocksdb_options_set_block_size_deviation(self.Opt, C.int(value))`. -/
def Options.SetBlockSizeDeviation (self : Options) (value : Int) (w : World) : World :=
  C.call .rocksdb_options_set_block_size_deviation [.ptr self.Opt, .int (toCInt value)] w

/-! ### Enumeration setters -/

/-- Go: `func (self *Options) SetInfoLogLevel`: `C.rocksdb_options_set_info_log_level(self.Opt, C.int(value))`. -/
def Options.SetInfoLogLevel (self : Options) (value : InfoLogLevel) (w : World) : World :=
  C.call .rocksdb_options_set_info_log_level [.ptr self.Opt, .int (toCInt value.val)] w

/-- Go: `func (self *Options) SetCompression`: `C.rocksdb_options_set_compression(self.Opt, C.int(value))`. -/
def Options.SetCompression (self : Options) (value : CompressionType) (w : World) : World :=
  C.call .rocksdb_options_set_compression [.ptr self.Opt, .int (toCInt value.val)] w

/-- Go: `func (self *Options) SetAccessHintOnCompactionStart`: `C.rocksdb_options_set_access_hint_on_compaction_start(self.Opt, C.int(value))`. -/
def Options.SetAccessHintOnCompactionStart (self : Options) (value : CompactionAccessPattern) (w : World) : World :=
  C.call .rocksdb_options_set_access_hint_on_compaction_start [.ptr self.Opt, .int (toCInt value.val)] w

/-- Go: `func (self *Options) SetCompactionStyle`: `C.rocksdb_options_set_compaction_style(self.Opt, C.int(value))`. -/
def Options.SetCompactionStyle (self : Options) (value : CompactionStyle) (w : World) : World :=
  C.call .rocksdb_options_set_compaction_style [.ptr self.Opt, .int (toCInt value.val)] w

/-- The boolean setters of `Options`, `ReadOptions` and `WriteOptions`. -/
inductive BoolSetter where
  | Options_SetCreateIfMissing
  | Options_SetErrorIfExists
  | Options_SetParanoidChecks
  | Options_SetWholeKeyFiltering
  | Options_SetDisableDataSync
  | Options_SetUseFsync
  | Options_SetDisableSeekCompaction
  | Options_SetNoBlockCache
  | Options_SetDisableAutoCompactions
  | Options_SetPurgeRedundantKvsWhileFlush
  | Options_SetAllowOsBuffer
  | Options_SetAllowMmapReads
  | Options_SetAllowMmapWrites
  | Options_SetIsFdCloseOnExec
  | Options_SetSkipLogErrorOnRecovery
  | Options_SetAdviseRandomOnOpen
  | Options_SetUseAdaptiveMutex
  | Options_SetVerifyChecksumsInCompaction
  | Options_SetFilterDeletes
  | Options_SetInplaceUpdateSupport
  | Options_SetAllowThreadLocal
  | ReadOptions_SetVerifyChecksums
  | ReadOptions_SetFillCache
  | WriteOptions_SetSync
  deriving DecidableEq, Repr

/-- Calls the boolean setter `s` on the handle of its receiver type. -/
def BoolSetter.run (s : BoolSetter) (o : Options) (ro : ReadOptions) (wo : WriteOptions)
    (value : Bool) (w : World) : World :=
  match s with
  | .Options_SetCreateIfMissing => o.SetCreateIfMissing value w
  | .Options_SetErrorIfExists => o.SetErrorIfExists value w
  | .Options_SetParanoidChecks => o.SetParanoidChecks value w
  | .Options_SetWholeKeyFiltering => o.SetWholeKeyFiltering value w
  | .Options_SetDisableDataSync => o.SetDisableDataSync value w
  | .Options_SetUseFsync => o.SetUseFsync value w
  | .Options_SetDisableSeekCompaction => o.SetDisableSeekCompaction value w
  | .Options_SetNoBlockCache => o.SetNoBlockCache value w
  | .Options_SetDisableAutoCompactions => o.SetDisableAutoCompactions value w
  | .Options_SetPurgeRedundantKvsWhileFlush => o.SetPurgeRedundantKvsWhileFlush value w
  | .Options_SetAllowOsBuffer => o.SetAllowOsBuffer value w
  | .Options_SetAllowMmapReads => o.SetAllowMmapReads value w
  | .Options_SetAllowMmapWrites => o.SetAllowMmapWrites value w
  | .Options_SetIsFdCloseOnExec => o.SetIsFdCloseOnExec value w
  | .Options_SetSkipLogErrorOnRecovery => o.SetSkipLogErrorOnRecovery value w
  | .Options_SetAdviseRandomOnOpen => o.SetAdviseRandomOnOpen value w
  | .Options_SetUseAdaptiveMutex => o.SetUseAdaptiveMutex value w
  | .Options_SetVerifyChecksumsInCompaction => o.SetVerifyChecksumsInCompaction value w
  | .Options_SetFilterDeletes => o.SetFilterDeletes value w
  | .Options_SetInplaceUpdateSupport => o.SetInplaceUpdateSupport value w
  | .Options_SetAllowThreadLocal => o.SetAllowThreadLocal value w
  | .ReadOptions_SetVerifyChecksums => ro.SetVerifyChecksums value w
  | .ReadOptions_SetFillCache => ro.SetFillCache value w
  | .WriteOptions_SetSync => wo.SetSync value w

/-- The setters of `Options` that take a Go `int` and convert it with `C.int`. -/
inductive IntSetter where
  | SetMaxWriteBufferNumber
  | SetMinWriteBufferNumberToMerge
  | SetMaxOpenFiles
  | SetBlockRestartInterval
  | SetMinLevelToCompress
  | SetNumLevels
  | SetLevel0FileNumCompactionTrigger
  | SetLevel0SlowdownWritesTrigger
  | SetLevel0StopWritesTrigger
  | SetMaxMemCompactionLevel
  | SetTargetFileSizeMultiplier
  | SetMaxBytesForLevelMultiplier
  | SetExpandedCompactionFactor
  | SetSourceCompactionFactor
  | SetMaxGrandparentOverlapFactor
  | SetDbStatsLogInterval
  | SetMaxBackgroundCompactions
  | SetMaxBackgroundFlushes
  | SetTableCacheNumshardbits
  | SetTableCacheRemoveScanCountLimit
  | SetBlockSizeDeviation
  deriving DecidableEq, Repr

/-- Calls the integer setter `s`. -/
def IntSetter.run (s : IntSetter) (o : Options) (value : Int) (w : World) : World :=
  match s with
  | .SetMaxWriteBufferNumber => o.SetMaxWriteBufferNumber value w
  | .SetMinWriteBufferNumberToMerge => o.SetMinWriteBufferNumberToMerge value w
  | .SetMaxOpenFiles => o.SetMaxOpenFiles value w
  | .SetBlockRestartInterval => o.SetBlockRestartInterval value w
  | .SetMinLevelToCompress => o.SetMinLevelToCompress value w
  | .SetNumLevels => o.SetNumLevels value w
  | .SetLevel0FileNumCompactionTrigger => o.SetLevel0FileNumCompactionTrigger value w
  | .SetLevel0SlowdownWritesTrigger => o.SetLevel0SlowdownWritesTrigger value w
  | .SetLevel0StopWritesTrigger => o.SetLevel0StopWritesTrigger value w
  | .SetMaxMemCompactionLevel => o.SetMaxMemCompactionLevel value w
  | .SetTargetFileSizeMultiplier => o.SetTargetFileSizeMultiplier value w
  | .SetMaxBytesForLevelMultiplier => o.SetMaxBytesForLevelMultiplier value w
  | .SetExpandedCompactionFactor => o.SetExpandedCompactionFactor value w
  | .SetSourceCompactionFactor => o.SetSourceCompactionFactor value w
  | .SetMaxGrandparentOverlapFactor => o.SetMaxGrandparentOverlapFactor value w
  | .SetDbStatsLogInterval => o.SetDbStatsLogInterval value w
  | .SetMaxBackgroundCompactions => o.SetMaxBackgroundCompactions value w
  | .SetMaxBackgroundFlushes => o.SetMaxBackgroundFlushes value w
  | .SetTableCacheNumshardbits => o.SetTableCacheNumshardbits value w
  | .SetTableCacheRemoveScanCountLimit => o.SetTableCacheRemoveScanCountLimit value w
  | .SetBlockSizeDeviation => o.SetBlockSizeDeviation value w

/-! ### Array-valued setters -/

/-- Go: `make([]C.int, n)`, a slice of `n` zeroes. -/
def makeCInts (n : Nat) : List Int := List.replicate n 0

/-- The loop `for i, v := range value { cLevels[i] = C.int(v) }`, from the
index `i` on, over the elements of `value` still to visit; `conv` is the
conversion `C.int` on the element type.  An indexed store is bounds-checked. -/
def fillLevels {α : Type} (conv : α → Int) : Nat → List α → List Int → Except Panic (List Int)
  | _, [], cLevels => .ok cLevels
  | i, v :: rest, cLevels =>
    if i < cLevels.length then fillLevels conv (i + 1) rest (cLevels.set i (conv v))
    else .error .indexOutOfRange

/-- The expression `&cLevels[0]`: the address of the first element, as the
array it points into; bounds-checked. -/
def firstElemPtr (cLevels : List Int) : Except Panic CVal :=
  match cLevels with
  | [] => .error .indexOutOfRange
  | _ :: _ => .ok (.intArray cLevels)

/-- Go: `func (self *Options) SetCompressionPerLevel(value []CompressionType)`.
Returns the caller's slice as the call leaves it, and the outcome. -/
def Options.SetCompressionPerLevel (a : Arch) (self : Options) (value : List CompressionType)
    (w : World) : List CompressionType × Outcome :=
  let cLevels := makeCInts value.length
  match fillLevels (fun v => toCInt v.val) 0 value cLevels with
  | .error p => (value, .panicked p w)
  | .ok cLevels =>
    match firstElemPtr cLevels with
    | .error p => (value, .panicked p w)
    | .ok first =>
      (value, .done (C.call .rocksdb_options_set_compression_per_level
        [.ptr self.Opt, first, .size_t (toCSizeT a value.length)] w))

/-- Go: `func (self *Options) SetMaxBytesForLevelMultiplierAdditional(value []int)`.
Returns the caller's slice as the call leaves it, and the outcome. -/
def Options.SetMaxBytesForLevelMultiplierAdditional (a : Arch) (self : Options)
    (value : List Int) (w : World) : List Int × Outcome :=
  let cLevels := makeCInts value.length
  match fillLevels (fun v => toCInt v) 0 value cLevels with
  | .error p => (value, .panicked p w)
  | .ok cLevels =>
    match firstElemPtr cLevels with
    | .error p => (value, .panicked p w)
    | .ok first =>
      (value, .done (C.call .rocksdb_options_set_max_bytes_for_level_multiplier_additional
        [.ptr self.Opt, first, .size_t (toCSizeT a value.length)] w))

/-! ### Strings -/

/-- Byte-addressed memory: the byte at each address, from address `0` on. -/
abbrev Memory := List Nat

/-- Go: `reflect.StringHeader`, the run-time representation of a string: the
address of its first byte and its length in bytes. -/
structure StringHeader where
  Data : Nat
  Len : Nat
  deriving DecidableEq, Repr

/-- The bytes of the Go string `s` in the memory `m`. -/
def StringHeader.bytes (m : Memory) (s : StringHeader) : List Nat :=
  (m.drop s.Data).take s.Len

/-- Go: `func stringToChar(s string) *C.char`: the `Data` field of the header
of `s`, as a `char*`. -/
def stringToChar (s : StringHeader) : Nat :=
  let ptrStr := s
  ptrStr.Data

/-- What a native function reads from the `char*` `p` as a C string: the bytes
from `p` up to the first `0` byte. -/
def cString (m : Memory) (p : Nat) : List Nat :=
  (m.drop p).takeWhile (fun b => b != 0)

/-- Go: `func (self *Options) SetDbLogDir(value string)`. -/
def Options.SetDbLogDir (self : Options) (value : StringHeader) (w : World) : World :=
  C.call .rocksdb_options_set_db_log_dir [.ptr self.Opt, .charPtr (stringToChar value)] w

/-- Go: `func (self *Options) SetWalDir(value string)`. -/
def Options.SetWalDir (self : Options) (value : StringHeader) (w : World) : World :=
  C.call .rocksdb_options_set_wal_dir [.ptr self.Opt, .charPtr (stringToChar value)] w

/-- The boolean setters that the claim names as passing the integer flag. -/
def intFlagSetters : List BoolSetter :=
  [.Options_SetDisableDataSync, .Options_SetUseFsync, .Options_SetDisableSeekCompaction,
   .Options_SetDisableAutoCompactions]

/-- The bytes of `"logs/archive"` at address `0`, with a `0` byte after them. -/
def logsArchiveMemory : Memory :=
  [108, 111, 103, 115, 47, 97, 114, 99, 104, 105, 118, 101, 0]

/-- The Go string `"logs/archive"[:4]`, that is `"logs"`, in `logsArchiveMemory`:
a substring shares the bytes of the string it is cut from. -/
def logsDir : StringHeader := { Data := 0, Len := 4 }

/-! ### The other setters -/

/-- Go: `func (o *Options) SetComparator(cmp *C.rocksdb_comparator_t)`: `C.rocksdb_options_set_comparator(o.Opt, cmp)`. -/
def Options.SetComparator (o : Options) (cmp : Nat) (w : World) : World :=
  C.call .rocksdb_options_set_comparator [.ptr o.Opt, .ptr cmp] w

/-- Go: `func (self *Options) SetEnv(env *Env)`: `C.rocksdb_options_set_env(self.Opt, env.Env)`.
Reading the field `Env` through a nil `env` panics. -/
def Options.SetEnv (self : Options) (env : Option Env) (w : World) : Outcome :=
  match env with
  | none => .panicked .nilDereference w
  | some env => .done (C.call .rocksdb_options_set_env [.ptr self.Opt, .ptr env.Env] w)

/-- Go: `func (o *Options) SetInfoLog(log *C.rocksdb_logger_t)`: `C.rocksdb_options_set_info_log(o.Opt, log)`. -/
def Options.SetInfoLog (o : Options) (log : Nat) (w : World) : World :=
  C.call .rocksdb_options_set_info_log [.ptr o.Opt, .ptr log] w

/-- Go: `func (o *Options) SetFilterPolicy(fp *FilterPolicy)`: the local `policy` starts as the nil
pointer, takes `fp.Policy` when `fp` is not nil, and is handed to
`C.rocksdb_options_set_filter_policy(o.Opt, policy)`. -/
def Options.SetFilterPolicy (o : Options) (fp : Option FilterPolicy) (w : World) : World :=
  let policy : Nat := 0
  let policy := match fp with
    | some fp => fp.Policy
    | none => policy
  C.call .rocksdb_options_set_filter_policy [.ptr o.Opt, .ptr policy] w

/-- Go: `func (self *Options) SetWriteBufferSize(value int)`: `C.rocksdb_options_set_write_buffer_size(self.Opt, C.size_t(value))`. -/
def Options.SetWriteBufferSize (a : Arch) (self : Options) (value : Int) (w : World) : World :=
  C.call .rocksdb_options_set_write_buffer_size [.ptr self.Opt, .size_t (toCSizeT a value)] w

/-- Go: `func (self *Options) SetCache(cache *Cache)`: `C.rocksdb_options_set_cache(self.Opt, cache.Cache)`.
Reading the field `Cache` through a nil `cache` panics. -/
def Options.SetCache (self : Options) (cache : Option Cache) (w : World) : Outcome :=
  match cache with
  | none => .panicked .nilDereference w
  | some cache => .done (C.call .rocksdb_options_set_cache [.ptr self.Opt, .ptr cache.Cache] w)

/-- Go: `func (self *Options) SetCacheCompressed(cache *Cache)`: `C.rocksdb_options_set_cache_compressed(self.Opt, cache.Cache)`.
Reading the field `Cache` through a nil `cache` panics. -/
def Options.SetCacheCompressed (self : Options) (cache : Option Cache) (w : World) : Outcome :=
  match cache with
  | none => .panicked .nilDereference w
  | some cache => .done (C.call .rocksdb_options_set_cache_compressed [.ptr self.Opt, .ptr cache.Cache] w)

/-- Go: `func (self *Options) SetBlockSize(value int)`: `C.rocksdb_options_set_block_size(self.Opt, C.size_t(value))`. -/
def Options.SetBlockSize (a : Arch) (self : Options) (value : Int) (w : World) : World :=
  C.call .rocksdb_options_set_block_size [.ptr self.Opt, .size_t (toCSizeT a value)] w

/-- Go: `func (self *Options) SetTargetFileSizeBase(value uint64)`: `C.rocksdb_options_set_target_file_size_base(self.Opt, C.uint64_t(value))`. -/
def Options.SetTargetFileSizeBase (self : Options) (value : Nat) (w : World) : World :=
  C.call .rocksdb_options_set_target_file_size_base [.ptr self.Opt, .uint64 (wrapUnsigned 64 value)] w

/-- Go: `func (self *Options) SetMaxBytesForLevelBase(value uint64)`: `C.rocksdb_options_set_max_bytes_for_level_base(self.Opt, C.uint64_t(value))`. -/
def Options.SetMaxBytesForLevelBase (self : Options) (value : Nat) (w : World) : World :=
  C.call .rocksdb_options_set_max_bytes_for_level_base [.ptr self.Opt, .uint64 (wrapUnsigned 64 value)] w

/-- Go: `func (self *Options) SetDeleteObsoleteFilesPeriodMicros(value uint64)`: `C.rocksdb_options_set_delete_obsolete_files_period_micros(self.Opt, C.uint64_t(value))`. -/
def Options.SetDeleteObsoleteFilesPeriodMicros (self : Options) (value : Nat) (w : World) : World :=
  C.call .rocksdb_options_set_delete_obsolete_files_period_micros [.ptr self.Opt, .uint64 (wrapUnsigned 64 value)] w

/-- Go: `func (self *Options) SetMaxLogFileSize(value int)`: `C.rocksdb_options_set_max_log_file_size(self.Opt, C.size_t(value))`. -/
def Options.SetMaxLogFileSize (a : Arch) (self : Options) (value : Int) (w : World) : World :=
  C.call .rocksdb_options_set_max_log_file_size [.ptr self.Opt, .size_t (toCSizeT a value)] w

/-- Go: `func (self *Options) SetLogFileTimeToRoll(value int)`: `C.rocksdb_options_set_log_file_time_to_roll(self.Opt, C.size_t(value))`. -/
def Options.SetLogFileTimeToRoll (a : Arch) (self : Options) (value : Int) (w : World) : World :=
  C.call .rocksdb_options_set_log_file_time_to_roll [.ptr self.Opt, .size_t (toCSizeT a value)] w

/-- Go: `func (self *Options) SetKeepLogFileNum(value int)`: `C.rocksdb_options_set_keep_log_file_num(self.Opt, C.size_t(value))`. -/
def Options.SetKeepLogFileNum (a : Arch) (self : Options) (value : Int) (w : World) : World :=
  C.call .rocksdb_options_set_keep_log_file_num [.ptr self.Opt, .size_t (toCSizeT a value)] w

/-- Go: `func (self *Options) SetSoftRateLimit(value float64)`: `C.rocksdb_options_set_soft_rate_limit(self.Opt, C.double(value))`. -/
def Options.SetSoftRateLimit (self : Options) (value : Float64) (w : World) : World :=
  C.call .rocksdb_options_set_soft_rate_limit [.ptr self.Opt, .double value] w

/-- Go: `func (self *Options) SetHardRateLimit(value float64)`: `C.rocksdb_options_set_hard_rate_limit(self.Opt, C.double(value))`. -/
def Options.SetHardRateLimit (self : Options) (value : Float64) (w : World) : World :=
  C.call .rocksdb_options_set_hard_rate_limit [.ptr self.Opt, .double value] w

/-- Go: `func (self *Options) SetRateLimitDelayMaxMilliseconds(value uint)`: `C.rocksdb_options_set_rate_limit_delay_max_milliseconds(self.Opt, C.uint(value))`. -/
def Options.SetRateLimitDelayMaxMilliseconds (self : Options) (value : Nat) (w : World) : World :=
  C.call .rocksdb_options_set_rate_limit_delay_max_milliseconds [.ptr self.Opt, .uint (wrapUnsigned 32 value)] w

/-- Go: `func (self *Options) SetMaxManifestFileSize(value uint64)`: `C.rocksdb_options_set_max_manifest_file_size(self.Opt, C.size_t(value))`. -/
def Options.SetMaxManifestFileSize (a : Arch) (self : Options) (value : Nat) (w : World) : World :=
  C.call .rocksdb_options_set_max_manifest_file_size [.ptr self.Opt, .size_t (toCSizeT a value)] w

/-- Go: `func (self *Options) SetArenaBlockSize(value int)`: `C.rocksdb_options_set_arena_block_size(self.Opt, C.size_t(value))`. -/
def Options.SetArenaBlockSize (a : Arch) (self : Options) (value : Int) (w : World) : World :=
  C.call .rocksdb_options_set_arena_block_size [.ptr self.Opt, .size_t (toCSizeT a value)] w

/-- Go: `func (self *Options) SetWALTtlSeconds(value uint64)`: `C.rocksdb_options_set_WAL_ttl_seconds(self.Opt, C.uint64_t(value))`. -/
def Options.SetWALTtlSeconds (self : Options) (value : Nat) (w : World) : World :=
  C.call .rocksdb_options_set_WAL_ttl_seconds [.ptr self.Opt, .uint64 (wrapUnsigned 64 value)] w

/-- Go: `func (self *Options) SetWalSizeLimitMb(value uint64)`: `C.rocksdb_options_set_WAL_size_limit_MB(self.Opt, C.uint64_t(value))`. -/
def Options.SetWalSizeLimitMb (self : Options) (value : Nat) (w : World) : World :=
  C.call .rocksdb_options_set_WAL_size_limit_MB [.ptr self.Opt, .uint64 (wrapUnsigned 64 value)] w

/-- Go: `func (self *Options) SetManifestPreallocationSize(value int)`: `C.rocksdb_options_set_manifest_preallocation_size(self.Opt, C.size_t(value))`. -/
def Options.SetManifestPreallocationSize (a : Arch) (self : Options) (value : Int) (w : World) : World :=
  C.call .rocksdb_options_set_manifest_preallocation_size [.ptr self.Opt, .size_t (toCSizeT a value)] w

/-- Go: `func (self *Options) SetStatsDumpPeriodSec(value uint)`: `C.rocksdb_options_set_stats_dump_period_sec(self.Opt, C.uint(value))`. -/
def Options.SetStatsDumpPeriodSec (self : Options) (value : Nat) (w : World) : World :=
  C.call .rocksdb_options_set_stats_dump_period_sec [.ptr self.Opt, .uint (wrapUnsigned 32 value)] w

/-- Go: `func (self *Options) SetBytesPerSync(value uint64)`: `C.rocksdb_options_set_bytes_per_sync(self.Opt, C.uint64_t(value))`. -/
def Options.SetBytesPerSync (self : Options) (value : Nat) (w : World) : World :=
  C.call .rocksdb_options_set_bytes_per_sync [.ptr self.Opt, .uint64 (wrapUnsigned 64 value)] w

/-- Go: `func (self *Options) SetUniversalCompactionOptions(value *UniversalCompactionOptions)`: `C.rocksdb_options_set_universal_compaction_options(self.Opt, value.c)`.
Reading the field `c` through a nil `value` panics. -/
def Options.SetUniversalCompactionOptions (self : Options) (value : Option UniversalCompactionOptions) (w : World) : Outcome :=
  match value with
  | none => .panicked .nilDereference w
  | some value => .done (C.call .rocksdb_options_set_universal_compaction_options [.ptr self.Opt, .ptr value.c] w)

/-- Go: `func (self *Options) SetMaxSequentialSkipInIterations(value uint64)`: `C.rocksdb_options_set_max_sequential_skip_in_iterations(self.Opt, C.uint64_t(value))`. -/
def Options.SetMaxSequentialSkipInIterations (self : Options) (value : Nat) (w : World) : World :=
  C.call .rocksdb_options_set_max_sequential_skip_in_iterations [.ptr self.Opt, .uint64 (wrapUnsigned 64 value)] w

/-- Go: `func (self *Options) SetInplaceUpdateNumLocks(value int)`: `C.rocksdb_options_set_inplace_update_num_locks(self.Opt, C.size_t(value))`. -/
def Options.SetInplaceUpdateNumLocks (a : Arch) (self : Options) (value : Int) (w : World) : World :=
  C.call .rocksdb_options_set_inplace_update_num_locks [.ptr self.Opt, .size_t (toCSizeT a value)] w

/-- Go: `func (self *Options) SetMemtablePrefixBloomBits(value uint32)`: `C.rocksdb_options_set_memtable_prefix_bloom_bits(self.Opt, C.uint32_t(value))`. -/
def Options.SetMemtablePrefixBloomBits (self : Options) (value : Nat) (w : World) : World :=
  C.call .rocksdb_options_set_memtable_prefix_bloom_bits [.ptr self.Opt, .uint32 (wrapUnsigned 32 value)] w

/-- Go: `func (self *Options) SetMemtablePrefixBloomProbes(value uint32)`: `C.rocksdb_options_set_memtable_prefix_bloom_probes(self.Opt, C.uint32_t(value))`. -/
def Options.SetMemtablePrefixBloomProbes (self : Options) (value : Nat) (w : World) : World :=
  C.call .rocksdb_options_set_memtable_prefix_bloom_probes [.ptr self.Opt, .uint32 (wrapUnsigned 32 value)] w

/-- Go: `func (self *Options) SetBloomLocality(value uint32)`: `C.rocksdb_options_set_bloom_locality(self.Opt, C.uint32_t(value))`. -/
def Options.SetBloomLocality (self : Options) (value : Nat) (w : World) : World :=
  C.call .rocksdb_options_set_bloom_locality [.ptr self.Opt, .uint32 (wrapUnsigned 32 value)] w

/-- Go: `func (self *Options) SetMaxSuccessiveMerges(value int)`: `C.rocksdb_options_set_max_successive_merges(self.Opt, C.size_t(value))`. -/
def Options.SetMaxSuccessiveMerges (a : Arch) (self : Options) (value : Int) (w : World) : World :=
  C.call .rocksdb_options_set_max_successive_merges [.ptr self.Opt, .size_t (toCSizeT a value)] w

/-- Go: `func (self *Options) SetMinPartialMergeOperands(value uint32)`: `C.rocksdb_options_set_min_partial_merge_operands(self.Opt, C.uint32_t(value))`. -/
def Options.SetMinPartialMergeOperands (self : Options) (value : Nat) (w : World) : World :=
  C.call .rocksdb_options_set_min_partial_merge_operands [.ptr self.Opt, .uint32 (wrapUnsigned 32 value)] w

/-- Go: `func (self *Options) EnableStatistics()`: `C.rocksdb_options_enable_statistics(self.Opt)`. -/
def Options.EnableStatistics (self : Options) (w : World) : World :=
  C.call .rocksdb_options_enable_statistics [.ptr self.Opt] w

/-- Go: `func (self *Options) PrepareForBulkLoad()`: `C.rocksdb_options_prepare_for_bulk_load(self.Opt)`. -/
def Options.PrepareForBulkLoad (self : Options) (w : World) : World :=
  C.call .rocksdb_options_prepare_for_bulk_load [.ptr self.Opt] w

/-- Go: `func (self *Options) SetMemtableVectorRep()`: `C.rocksdb_options_set_memtable_vector_rep(self.Opt)`. -/
def Options.SetMemtableVectorRep (self : Options) (w : World) : World :=
  C.call .rocksdb_options_set_memtable_vector_rep [.ptr self.Opt] w

/-- Go: `func (self *Options) SetHashSkipListRep(bucketCount int, skiplistHeight, skiplistBranchingFactor int32)`: `C.rocksdb_options_set_hash_skip_list_rep(self.Opt, C.size_t(bucketCount), C.int32_t(skiplistHeight), C.int32_t(skiplistBranchingFactor))`. -/
def Options.SetHashSkipListRep (a : Arch) (self : Options) (bucketCount : Int) (skiplistHeight : Int) (skiplistBranchingFactor : Int) (w : World) : World :=
  C.call .rocksdb_options_set_hash_skip_list_rep [.ptr self.Opt, .size_t (toCSizeT a bucketCount), .int32 (wrapSigned 32 skiplistHeight), .int32 (wrapSigned 32 skiplistBranchingFactor)] w

/-- Go: `func (self *Options) SetHashLinkListRep(bucketCount int)`: `C.rocksdb_options_set_hash_link_list_rep(self.Opt, C.size_t(bucketCount))`. -/
def Options.SetHashLinkListRep (a : Arch) (self : Options) (bucketCount : Int) (w : World) : World :=
  C.call .rocksdb_options_set_hash_link_list_rep [.ptr self.Opt, .size_t (toCSizeT a bucketCount)] w

/-- Go: `func (self *Options) SetPlainTableFactory(keyLen uint32, bloomBitsPerKey int, hashTableRatio float64, indexSparseness int)`: `C.rocksdb_options_set_plain_table_factory(self.Opt, C.uint32_t(keyLen), C.int(bloomBitsPerKey), C.double(hashTableRatio), C.size_t(indexSparseness))`. -/
def Options.SetPlainTableFactory (a : Arch) (self : Options) (keyLen : Nat) (bloomBitsPerKey : Int) (hashTableRatio : Float64) (indexSparseness : Int) (w : World) : World :=
  C.call .rocksdb_options_set_plain_table_factory [.ptr self.Opt, .uint32 (wrapUnsigned 32 keyLen), .int (toCInt bloomBitsPerKey), .double hashTableRatio, .size_t (toCSizeT a indexSparseness)] w

/-- Go: `func (ro *ReadOptions) SetSnapshot(snap *Snapshot)`: the local `s` starts as the nil
pointer, takes `snap.snap` when `snap` is not nil, and is handed to
`C.rocksdb_readoptions_set_snapshot(ro.Opt, s)`. -/
def ReadOptions.SetSnapshot (ro : ReadOptions) (snap : Option Snapshot) (w : World) : World :=
  let s : Nat := 0
  let s := match snap with
    | some snap => snap.snap
    | none => s
  C.call .rocksdb_readoptions_set_snapshot [.ptr ro.Opt, .ptr s] w

/-! ### Release -/

/-- Go: `func (o *Options) Close()`: `C.rocksdb_options_destroy(o.Opt)`.  Returns
the receiver as the call leaves it. -/
def Options.Close (o : Options) (w : World) : Options × World :=
  (o, C.call .rocksdb_options_destroy [.ptr o.Opt] w)

/-- Go: `func (ro *ReadOptions) Close()`: `C.rocksdb_readoptions_destroy(ro.Opt)`.
Returns the receiver as the call leaves it. -/
def ReadOptions.Close (ro : ReadOptions) (w : World) : ReadOptions × World :=
  (ro, C.call .rocksdb_readoptions_destroy [.ptr ro.Opt] w)

/-- Go: `func (wo *WriteOptions) Close()`: `C.rocksdb_writeoptions_destroy(wo.Opt)`.
Returns the receiver as the call leaves it. -/
def WriteOptions.Close (wo : WriteOptions) (w : World) : WriteOptions × World :=
  (wo, C.call .rocksdb_writeoptions_destroy [.ptr wo.Opt] w)

/-- The setters of `Options` that take a Go `int` and convert it with `C.size_t`. -/
inductive SizeSetter where
  | SetWriteBufferSize
  | SetBlockSize
  | SetMaxLogFileSize
  | SetLogFileTimeToRoll
  | SetKeepLogFileNum
  | SetArenaBlockSize
  | SetManifestPreallocationSize
  | SetInplaceUpdateNumLocks
  | SetMaxSuccessiveMerges
  deriving DecidableEq, Repr

/-- Calls the size setter `s`. -/
def SizeSetter.run (s : SizeSetter) (a : Arch) (o : Options) (value : Int) (w : World) : World :=
  match s with
  | .SetWriteBufferSize => o.SetWriteBufferSize a value w
  | .SetBlockSize => o.SetBlockSize a value w
  | .SetMaxLogFileSize => o.SetMaxLogFileSize a value w
  | .SetLogFileTimeToRoll => o.SetLogFileTimeToRoll a value w
  | .SetKeepLogFileNum => o.SetKeepLogFileNum a value w
  | .SetArenaBlockSize => o.SetArenaBlockSize a value w
  | .SetManifestPreallocationSize => o.SetManifestPreallocationSize a value w
  | .SetInplaceUpdateNumLocks => o.SetInplaceUpdateNumLocks a value w
  | .SetMaxSuccessiveMerges => o.SetMaxSuccessiveMerges a value w

/-! ### Every setter method -/

/-- A call of a setter method of `Options`, `ReadOptions` or `WriteOptions`, with
its arguments. -/
inductive SetterCall where
  | Options_SetComparator (cmp : Nat)
  | Options_SetCreateIfMissing (value : Bool)
  | Options_SetErrorIfExists (value : Bool)
  | Options_SetParanoidChecks (value : Bool)
  | Options_SetEnv (env : Option Env)
  | Options_SetInfoLog (log : Nat)
  | Options_SetFilterPolicy (fp : Option FilterPolicy)
  | Options_SetInfoLogLevel (value : InfoLogLevel)
  | Options_SetWriteBufferSize (value : Int)
  | Options_SetMaxWriteBufferNumber (value : Int)
  | Options_SetMinWriteBufferNumberToMerge (value : Int)
  | Options_SetMaxOpenFiles (value : Int)
  | Options_SetCache (cache : Option Cache)
  | Options_SetCacheCompressed (cache : Option Cache)
  | Options_SetBlockSize (value : Int)
  | Options_SetBlockRestartInterval (value : Int)
  | Options_SetCompression (value : CompressionType)
  | Options_SetCompressionPerLevel (value : List CompressionType)
  | Options_SetMinLevelToCompress (value : Int)
  | Options_SetWholeKeyFiltering (value : Bool)
  | Options_SetNumLevels (value : Int)
  | Options_SetLevel0FileNumCompactionTrigger (value : Int)
  | Options_SetLevel0SlowdownWritesTrigger (value : Int)
  | Options_SetLevel0StopWritesTrigger (value : Int)
  | Options_SetMaxMemCompactionLevel (value : Int)
  | Options_SetTargetFileSizeBase (value : Nat)
  | Options_SetTargetFileSizeMultiplier (value : Int)
  | Options_SetMaxBytesForLevelBase (value : Nat)
  | Options_SetMaxBytesForLevelMultiplier (value : Int)
  | Options_SetMaxBytesForLevelMultiplierAdditional (value : List Int)
  | Options_SetExpandedCompactionFactor (value : Int)
  | Options_SetSourceCompactionFactor (value : Int)
  | Options_SetMaxGrandparentOverlapFactor (value : Int)
  | Options_SetDisableDataSync (value : Bool)
  | Options_SetUseFsync (value : Bool)
  | Options_SetDbStatsLogInterval (value : Int)
  | Options_SetDbLogDir (value : StringHeader)
  | Options_SetWalDir (value : StringHeader)
  | Options_SetDisableSeekCompaction (value : Bool)
  | Options_SetDeleteObsoleteFilesPeriodMicros (value : Nat)
  | Options_SetMaxBackgroundCompactions (value : Int)
  | Options_SetMaxBackgroundFlushes (value : Int)
  | Options_SetMaxLogFileSize (value : Int)
  | Options_SetLogFileTimeToRoll (value : Int)
  | Options_SetKeepLogFileNum (value : Int)
  | Options_SetSoftRateLimit (value : Float64)
  | Options_SetHardRateLimit (value : Float64)
  | Options_SetRateLimitDelayMaxMilliseconds (value : Nat)
  | Options_SetMaxManifestFileSize (value : Nat)
  | Options_SetNoBlockCache (value : Bool)
  | Options_SetTableCacheNumshardbits (value : Int)
  | Options_SetTableCacheRemoveScanCountLimit (value : Int)
  | Options_SetArenaBlockSize (value : Int)
  | Options_SetDisableAutoCompactions (value : Bool)
  | Options_SetWALTtlSeconds (value : Nat)
  | Options_SetWalSizeLimitMb (value : Nat)
  | Options_SetManifestPreallocationSize (value : Int)
  | Options_SetPurgeRedundantKvsWhileFlush (value : Bool)
  | Options_SetAllowOsBuffer (value : Bool)
  | Options_SetAllowMmapReads (value : Bool)
  | Options_SetAllowMmapWrites (value : Bool)
  | Options_SetIsFdCloseOnExec (value : Bool)
  | Options_SetSkipLogErrorOnRecovery (value : Bool)
  | Options_SetStatsDumpPeriodSec (value : Nat)
  | Options_SetBlockSizeDeviation (value : Int)
  | Options_SetAdviseRandomOnOpen (value : Bool)
  | Options_SetAccessHintOnCompactionStart (value : CompactionAccessPattern)
  | Options_SetUseAdaptiveMutex (value : Bool)
  | Options_SetBytesPerSync (value : Nat)
  | Options_SetCompactionStyle (value : CompactionStyle)
  | Options_SetUniversalCompactionOptions (value : Option UniversalCompactionOptions)
  | Options_SetVerifyChecksumsInCompaction (value : Bool)
  | Options_SetFilterDeletes (value : Bool)
  | Options_SetMaxSequentialSkipInIterations (value : Nat)
  | Options_SetInplaceUpdateSupport (value : Bool)
  | Options_SetInplaceUpdateNumLocks (value : Int)
  | Options_SetMemtablePrefixBloomBits (value : Nat)
  | Options_SetMemtablePrefixBloomProbes (value : Nat)
  | Options_SetBloomLocality (value : Nat)
  | Options_SetMaxSuccessiveMerges (value : Int)
  | Options_SetMinPartialMergeOperands (value : Nat)
  | Options_SetAllowThreadLocal (value : Bool)
  | Options_EnableStatistics
  | Options_PrepareForBulkLoad
  | Options_SetMemtableVectorRep
  | Options_SetHashSkipListRep (bucketCount : Int) (skiplistHeight : Int) (skiplistBranchingFactor : Int)
  | Options_SetHashLinkListRep (bucketCount : Int)
  | Options_SetPlainTableFactory (keyLen : Nat) (bloomBitsPerKey : Int) (hashTableRatio : Float64) (indexSparseness : Int)
  | ReadOptions_SetVerifyChecksums (b : Bool)
  | ReadOptions_SetFillCache (b : Bool)
  | ReadOptions_SetSnapshot (snap : Option Snapshot)
  | WriteOptions_SetSync (b : Bool)

/-- The setter methods of `Options`, `ReadOptions` and `WriteOptions`. -/
inductive Method where
  | Options_SetComparator
  | Options_SetCreateIfMissing
  | Options_SetErrorIfExists
  | Options_SetParanoidChecks
  | Options_SetEnv
  | Options_SetInfoLog
  | Options_SetFilterPolicy
  | Options_SetInfoLogLevel
  | Options_SetWriteBufferSize
  | Options_SetMaxWriteBufferNumber
  | Options_SetMinWriteBufferNumberToMerge
  | Options_SetMaxOpenFiles
  | Options_SetCache
  | Options_SetCacheCompressed
  | Options_SetBlockSize
  | Options_SetBlockRestartInterval
  | Options_SetCompression
  | Options_SetCompressionPerLevel
  | Options_SetMinLevelToCompress
  | Options_SetWholeKeyFiltering
  | Options_SetNumLevels
  | Options_SetLevel0FileNumCompactionTrigger
  | Options_SetLevel0SlowdownWritesTrigger
  | Options_SetLevel0StopWritesTrigger
  | Options_SetMaxMemCompactionLevel
  | Options_SetTargetFileSizeBase
  | Options_SetTargetFileSizeMultiplier
  | Options_SetMaxBytesForLevelBase
  | Options_SetMaxBytesForLevelMultiplier
  | Options_SetMaxBytesForLevelMultiplierAdditional
  | Options_SetExpandedCompactionFactor
  | Options_SetSourceCompactionFactor
  | Options_SetMaxGrandparentOverlapFactor
  | Options_SetDisableDataSync
  | Options_SetUseFsync
  | Options_SetDbStatsLogInterval
  | Options_SetDbLogDir
  | Options_SetWalDir
  | Options_SetDisableSeekCompaction
  | Options_SetDeleteObsoleteFilesPeriodMicros
  | Options_SetMaxBackgroundCompactions
  | Options_SetMaxBackgroundFlushes
  | Options_SetMaxLogFileSize
  | Options_SetLogFileTimeToRoll
  | Options_SetKeepLogFileNum
  | Options_SetSoftRateLimit
  | Options_SetHardRateLimit
  | Options_SetRateLimitDelayMaxMilliseconds
  | Options_SetMaxManifestFileSize
  | Options_SetNoBlockCache
  | Options_SetTableCacheNumshardbits
  | Options_SetTableCacheRemoveScanCountLimit
  | Options_SetArenaBlockSize
  | Options_SetDisableAutoCompactions
  | Options_SetWALTtlSeconds
  | Options_SetWalSizeLimitMb
  | Options_SetManifestPreallocationSize
  | Options_SetPurgeRedundantKvsWhileFlush
  | Options_SetAllowOsBuffer
  | Options_SetAllowMmapReads
  | Options_SetAllowMmapWrites
  | Options_SetIsFdCloseOnExec
  | Options_SetSkipLogErrorOnRecovery
  | Options_SetStatsDumpPeriodSec
  | Options_SetBlockSizeDeviation
  | Options_SetAdviseRandomOnOpen
  | Options_SetAccessHintOnCompactionStart
  | Options_SetUseAdaptiveMutex
  | Options_SetBytesPerSync
  | Options_SetCompactionStyle
  | Options_SetUniversalCompactionOptions
  | Options_SetVerifyChecksumsInCompaction
  | Options_SetFilterDeletes
  | Options_SetMaxSequentialSkipInIterations
  | Options_SetInplaceUpdateSupport
  | Options_SetInplaceUpdateNumLocks
  | Options_SetMemtablePrefixBloomBits
  | Options_SetMemtablePrefixBloomProbes
  | Options_SetBloomLocality
  | Options_SetMaxSuccessiveMerges
  | Options_SetMinPartialMergeOperands
  | Options_SetAllowThreadLocal
  | Options_EnableStatistics
  | Options_PrepareForBulkLoad
  | Options_SetMemtableVectorRep
  | Options_SetHashSkipListRep
  | Options_SetHashLinkListRep
  | Options_SetPlainTableFactory
  | ReadOptions_SetVerifyChecksums
  | ReadOptions_SetFillCache
  | ReadOptions_SetSnapshot
  | WriteOptions_SetSync
  deriving DecidableEq, Repr

/-- The method that a call is a call of. -/
def SetterCall.method : SetterCall → Method
  | .Options_SetComparator .. => .Options_SetComparator
  | .Options_SetCreateIfMissing .. => .Options_SetCreateIfMissing
  | .Options_SetErrorIfExists .. => .Options_SetErrorIfExists
  | .Options_SetParanoidChecks .. => .Options_SetParanoidChecks
  | .Options_SetEnv .. => .Options_SetEnv
  | .Options_SetInfoLog .. => .Options_SetInfoLog
  | .Options_SetFilterPolicy .. => .Options_SetFilterPolicy
  | .Options_SetInfoLogLevel .. => .Options_SetInfoLogLevel
  | .Options_SetWriteBufferSize .. => .Options_SetWriteBufferSize
  | .Options_SetMaxWriteBufferNumber .. => .Options_SetMaxWriteBufferNumber
  | .Options_SetMinWriteBufferNumberToMerge .. => .Options_SetMinWriteBufferNumberToMerge
  | .Options_SetMaxOpenFiles .. => .Options_SetMaxOpenFiles
  | .Options_SetCache .. => .Options_SetCache
  | .Options_SetCacheCompressed .. => .Options_SetCacheCompressed
  | .Options_SetBlockSize .. => .Options_SetBlockSize
  | .Options_SetBlockRestartInterval .. => .Options_SetBlockRestartInterval
  | .Options_SetCompression .. => .Options_SetCompression
  | .Options_SetCompressionPerLevel .. => .Options_SetCompressionPerLevel
  | .Options_SetMinLevelToCompress .. => .Options_SetMinLevelToCompress
  | .Options_SetWholeKeyFiltering .. => .Options_SetWholeKeyFiltering
  | .Options_SetNumLevels .. => .Options_SetNumLevels
  | .Options_SetLevel0FileNumCompactionTrigger .. => .Options_SetLevel0FileNumCompactionTrigger
  | .Options_SetLevel0SlowdownWritesTrigger .. => .Options_SetLevel0SlowdownWritesTrigger
  | .Options_SetLevel0StopWritesTrigger .. => .Options_SetLevel0StopWritesTrigger
  | .Options_SetMaxMemCompactionLevel .. => .Options_SetMaxMemCompactionLevel
  | .Options_SetTargetFileSizeBase .. => .Options_SetTargetFileSizeBase
  | .Options_SetTargetFileSizeMultiplier .. => .Options_SetTargetFileSizeMultiplier
  | .Options_SetMaxBytesForLevelBase .. => .Options_SetMaxBytesForLevelBase
  | .Options_SetMaxBytesForLevelMultiplier .. => .Options_SetMaxBytesForLevelMultiplier
  | .Options_SetMaxBytesForLevelMultiplierAdditional .. => .Options_SetMaxBytesForLevelMultiplierAdditional
  | .Options_SetExpandedCompactionFactor .. => .Options_SetExpandedCompactionFactor
  | .Options_SetSourceCompactionFactor .. => .Options_SetSourceCompactionFactor
  | .Options_SetMaxGrandparentOverlapFactor .. => .Options_SetMaxGrandparentOverlapFactor
  | .Options_SetDisableDataSync .. => .Options_SetDisableDataSync
  | .Options_SetUseFsync .. => .Options_SetUseFsync
  | .Options_SetDbStatsLogInterval .. => .Options_SetDbStatsLogInterval
  | .Options_SetDbLogDir .. => .Options_SetDbLogDir
  | .Options_SetWalDir .. => .Options_SetWalDir
  | .Options_SetDisableSeekCompaction .. => .Options_SetDisableSeekCompaction
  | .Options_SetDeleteObsoleteFilesPeriodMicros .. => .Options_SetDeleteObsoleteFilesPeriodMicros
  | .Options_SetMaxBackgroundCompactions .. => .Options_SetMaxBackgroundCompactions
  | .Options_SetMaxBackgroundFlushes .. => .Options_SetMaxBackgroundFlushes
  | .Options_SetMaxLogFileSize .. => .Options_SetMaxLogFileSize
  | .Options_SetLogFileTimeToRoll .. => .Options_SetLogFileTimeToRoll
  | .Options_SetKeepLogFileNum .. => .Options_SetKeepLogFileNum
  | .Options_SetSoftRateLimit .. => .Options_SetSoftRateLimit
  | .Options_SetHardRateLimit .. => .Options_SetHardRateLimit
  | .Options_SetRateLimitDelayMaxMilliseconds .. => .Options_SetRateLimitDelayMaxMilliseconds
  | .Options_SetMaxManifestFileSize .. => .Options_SetMaxManifestFileSize
  | .Options_SetNoBlockCache .. => .Options_SetNoBlockCache
  | .Options_SetTableCacheNumshardbits .. => .Options_SetTableCacheNumshardbits
  | .Options_SetTableCacheRemoveScanCountLimit .. => .Options_SetTableCacheRemoveScanCountLimit
  | .Options_SetArenaBlockSize .. => .Options_SetArenaBlockSize
  | .Options_SetDisableAutoCompactions .. => .Options_SetDisableAutoCompactions
  | .Options_SetWALTtlSeconds .. => .Options_SetWALTtlSeconds
  | .Options_SetWalSizeLimitMb .. => .Options_SetWalSizeLimitMb
  | .Options_SetManifestPreallocationSize .. => .Options_SetManifestPreallocationSize
  | .Options_SetPurgeRedundantKvsWhileFlush .. => .Options_SetPurgeRedundantKvsWhileFlush
  | .Options_SetAllowOsBuffer .. => .Options_SetAllowOsBuffer
  | .Options_SetAllowMmapReads .. => .Options_SetAllowMmapReads
  | .Options_SetAllowMmapWrites .. => .Options_SetAllowMmapWrites
  | .Options_SetIsFdCloseOnExec .. => .Options_SetIsFdCloseOnExec
  | .Options_SetSkipLogErrorOnRecovery .. => .Options_SetSkipLogErrorOnRecovery
  | .Options_SetStatsDumpPeriodSec .. => .Options_SetStatsDumpPeriodSec
  | .Options_SetBlockSizeDeviation .. => .Options_SetBlockSizeDeviation
  | .Options_SetAdviseRandomOnOpen .. => .Options_SetAdviseRandomOnOpen
  | .Options_SetAccessHintOnCompactionStart .. => .Options_SetAccessHintOnCompactionStart
  | .Options_SetUseAdaptiveMutex .. => .Options_SetUseAdaptiveMutex
  | .Options_SetBytesPerSync .. => .Options_SetBytesPerSync
  | .Options_SetCompactionStyle .. => .Options_SetCompactionStyle
  | .Options_SetUniversalCompactionOptions .. => .Options_SetUniversalCompactionOptions
  | .Options_SetVerifyChecksumsInCompaction .. => .Options_SetVerifyChecksumsInCompaction
  | .Options_SetFilterDeletes .. => .Options_SetFilterDeletes
  | .Options_SetMaxSequentialSkipInIterations .. => .Options_SetMaxSequentialSkipInIterations
  | .Options_SetInplaceUpdateSupport .. => .Options_SetInplaceUpdateSupport
  | .Options_SetInplaceUpdateNumLocks .. => .Options_SetInplaceUpdateNumLocks
  | .Options_SetMemtablePrefixBloomBits .. => .Options_SetMemtablePrefixBloomBits
  | .Options_SetMemtablePrefixBloomProbes .. => .Options_SetMemtablePrefixBloomProbes
  | .Options_SetBloomLocality .. => .Options_SetBloomLocality
  | .Options_SetMaxSuccessiveMerges .. => .Options_SetMaxSuccessiveMerges
  | .Options_SetMinPartialMergeOperands .. => .Options_SetMinPartialMergeOperands
  | .Options_SetAllowThreadLocal .. => .Options_SetAllowThreadLocal
  | .Options_EnableStatistics => .Options_EnableStatistics
  | .Options_PrepareForBulkLoad => .Options_PrepareForBulkLoad
  | .Options_SetMemtableVectorRep => .Options_SetMemtableVectorRep
  | .Options_SetHashSkipListRep .. => .Options_SetHashSkipListRep
  | .Options_SetHashLinkListRep .. => .Options_SetHashLinkListRep
  | .Options_SetPlainTableFactory .. => .Options_SetPlainTableFactory
  | .ReadOptions_SetVerifyChecksums .. => .ReadOptions_SetVerifyChecksums
  | .ReadOptions_SetFillCache .. => .ReadOptions_SetFillCache
  | .ReadOptions_SetSnapshot .. => .ReadOptions_SetSnapshot
  | .WriteOptions_SetSync .. => .WriteOptions_SetSync

/-- Runs a call of a setter method, on the handle of its receiver type. -/
def SetterCall.run (a : Arch) (o : Options) (ro : ReadOptions) (wo : WriteOptions)
    (c : SetterCall) (w : World) : Outcome :=
  match c with
  | .Options_SetComparator cmp => .done (o.SetComparator cmp w)
  | .Options_SetCreateIfMissing value => .done (o.SetCreateIfMissing value w)
  | .Options_SetErrorIfExists value => .done (o.SetErrorIfExists value w)
  | .Options_SetParanoidChecks value => .done (o.SetParanoidChecks value w)
  | .Options_SetEnv env => o.SetEnv env w
  | .Options_SetInfoLog log => .done (o.SetInfoLog log w)
  | .Options_SetFilterPolicy fp => .done (o.SetFilterPolicy fp w)
  | .Options_SetInfoLogLevel value => .done (o.SetInfoLogLevel value w)
  | .Options_SetWriteBufferSize value => .done (o.SetWriteBufferSize a value w)
  | .Options_SetMaxWriteBufferNumber value => .done (o.SetMaxWriteBufferNumber value w)
  | .Options_SetMinWriteBufferNumberToMerge value => .done (o.SetMinWriteBufferNumberToMerge value w)
  | .Options_SetMaxOpenFiles value => .done (o.SetMaxOpenFiles value w)
  | .Options_SetCache cache => o.SetCache cache w
  | .Options_SetCacheCompressed cache => o.SetCacheCompressed cache w
  | .Options_SetBlockSize value => .done (o.SetBlockSize a value w)
  | .Options_SetBlockRestartInterval value => .done (o.SetBlockRestartInterval value w)
  | .Options_SetCompression value => .done (o.SetCompression value w)
  | .Options_SetCompressionPerLevel value => (o.SetCompressionPerLevel a value w).2
  | .Options_SetMinLevelToCompress value => .done (o.SetMinLevelToCompress value w)
  | .Options_SetWholeKeyFiltering value => .done (o.SetWholeKeyFiltering value w)
  | .Options_SetNumLevels value => .done (o.SetNumLevels value w)
  | .Options_SetLevel0FileNumCompactionTrigger value => .done (o.SetLevel0FileNumCompactionTrigger value w)
  | .Options_SetLevel0SlowdownWritesTrigger value => .done (o.SetLevel0SlowdownWritesTrigger value w)
  | .Options_SetLevel0StopWritesTrigger value => .done (o.SetLevel0StopWritesTrigger value w)
  | .Options_SetMaxMemCompactionLevel value => .done (o.SetMaxMemCompactionLevel value w)
  | .Options_SetTargetFileSizeBase value => .done (o.SetTargetFileSizeBase value w)
  | .Options_SetTargetFileSizeMultiplier value => .done (o.SetTargetFileSizeMultiplier value w)
  | .Options_SetMaxBytesForLevelBase value => .done (o.SetMaxBytesForLevelBase value w)
  | .Options_SetMaxBytesForLevelMultiplier value => .done (o.SetMaxBytesForLevelMultiplier value w)
  | .Options_SetMaxBytesForLevelMultiplierAdditional value => (o.SetMaxBytesForLevelMultiplierAdditional a value w).2
  | .Options_SetExpandedCompactionFactor value => .done (o.SetExpandedCompactionFactor value w)
  | .Options_SetSourceCompactionFactor value => .done (o.SetSourceCompactionFactor value w)
  | .Options_SetMaxGrandparentOverlapFactor value => .done (o.SetMaxGrandparentOverlapFactor value w)
  | .Options_SetDisableDataSync value => .done (o.SetDisableDataSync value w)
  | .Options_SetUseFsync value => .done (o.SetUseFsync value w)
  | .Options_SetDbStatsLogInterval value => .done (o.SetDbStatsLogInterval value w)
  | .Options_SetDbLogDir value => .done (o.SetDbLogDir value w)
  | .Options_SetWalDir value => .done (o.SetWalDir value w)
  | .Options_SetDisableSeekCompaction value => .done (o.SetDisableSeekCompaction value w)
  | .Options_SetDeleteObsoleteFilesPeriodMicros value => .done (o.SetDeleteObsoleteFilesPeriodMicros value w)
  | .Options_SetMaxBackgroundCompactions value => .done (o.SetMaxBackgroundCompactions value w)
  | .Options_SetMaxBackgroundFlushes value => .done (o.SetMaxBackgroundFlushes value w)
  | .Options_SetMaxLogFileSize value => .done (o.SetMaxLogFileSize a value w)
  | .Options_SetLogFileTimeToRoll value => .done (o.SetLogFileTimeToRoll a value w)
  | .Options_SetKeepLogFileNum value => .done (o.SetKeepLogFileNum a value w)
  | .Options_SetSoftRateLimit value => .done (o.SetSoftRateLimit value w)
  | .Options_SetHardRateLimit value => .done (o.SetHardRateLimit value w)
  | .Options_SetRateLimitDelayMaxMilliseconds value => .done (o.SetRateLimitDelayMaxMilliseconds value w)
  | .Options_SetMaxManifestFileSize value => .done (o.SetMaxManifestFileSize a value w)
  | .Options_SetNoBlockCache value => .done (o.SetNoBlockCache value w)
  | .Options_SetTableCacheNumshardbits value => .done (o.SetTableCacheNumshardbits value w)
  | .Options_SetTableCacheRemoveScanCountLimit value => .done (o.SetTableCacheRemoveScanCountLimit value w)
  | .Options_SetArenaBlockSize value => .done (o.SetArenaBlockSize a value w)
  | .Options_SetDisableAutoCompactions value => .done (o.SetDisableAutoCompactions value w)
  | .Options_SetWALTtlSeconds value => .done (o.SetWALTtlSeconds value w)
  | .Options_SetWalSizeLimitMb value => .done (o.SetWalSizeLimitMb value w)
  | .Options_SetManifestPreallocationSize value => .done (o.SetManifestPreallocationSize a value w)
  | .Options_SetPurgeRedundantKvsWhileFlush value => .done (o.SetPurgeRedundantKvsWhileFlush value w)
  | .Options_SetAllowOsBuffer value => .done (o.SetAllowOsBuffer value w)
  | .Options_SetAllowMmapReads value => .done (o.SetAllowMmapReads value w)
  | .Options_SetAllowMmapWrites value => .done (o.SetAllowMmapWrites value w)
  | .Options_SetIsFdCloseOnExec value => .done (o.SetIsFdCloseOnExec value w)
  | .Options_SetSkipLogErrorOnRecovery value => .done (o.SetSkipLogErrorOnRecovery value w)
  | .Options_SetStatsDumpPeriodSec value => .done (o.SetStatsDumpPeriodSec value w)
  | .Options_SetBlockSizeDeviation value => .done (o.SetBlockSizeDeviation value w)
  | .Options_SetAdviseRandomOnOpen value => .done (o.SetAdviseRandomOnOpen value w)
  | .Options_SetAccessHintOnCompactionStart value => .done (o.SetAccessHintOnCompactionStart value w)
  | .Options_SetUseAdaptiveMutex value => .done (o.SetUseAdaptiveMutex value w)
  | .Options_SetBytesPerSync value => .done (o.SetBytesPerSync value w)
  | .Options_SetCompactionStyle value => .done (o.SetCompactionStyle value w)
  | .Options_SetUniversalCompactionOptions value => o.SetUniversalCompactionOptions value w
  | .Options_SetVerifyChecksumsInCompaction value => .done (o.SetVerifyChecksumsInCompaction value w)
  | .Options_SetFilterDeletes value => .done (o.SetFilterDeletes value w)
  | .Options_SetMaxSequentialSkipInIterations value => .done (o.SetMaxSequentialSkipInIterations value w)
  | .Options_SetInplaceUpdateSupport value => .done (o.SetInplaceUpdateSupport value w)
  | .Options_SetInplaceUpdateNumLocks value => .done (o.SetInplaceUpdateNumLocks a value w)
  | .Options_SetMemtablePrefixBloomBits value => .done (o.SetMemtablePrefixBloomBits value w)
  | .Options_SetMemtablePrefixBloomProbes value => .done (o.SetMemtablePrefixBloomProbes value w)
  | .Options_SetBloomLocality value => .done (o.SetBloomLocality value w)
  | .Options_SetMaxSuccessiveMerges value => .done (o.SetMaxSuccessiveMerges a value w)
  | .Options_SetMinPartialMergeOperands value => .done (o.SetMinPartialMergeOperands value w)
  | .Options_SetAllowThreadLocal value => .done (o.SetAllowThreadLocal value w)
  | .Options_EnableStatistics => .done (o.EnableStatistics w)
  | .Options_PrepareForBulkLoad => .done (o.PrepareForBulkLoad w)
  | .Options_SetMemtableVectorRep => .done (o.SetMemtableVectorRep w)
  | .Options_SetHashSkipListRep bucketCount skiplistHeight skiplistBranchingFactor => .done (o.SetHashSkipListRep a bucketCount skiplistHeight skiplistBranchingFactor w)
  | .Options_SetHashLinkListRep bucketCount => .done (o.SetHashLinkListRep a bucketCount w)
  | .Options_SetPlainTableFactory keyLen bloomBitsPerKey hashTableRatio indexSparseness => .done (o.SetPlainTableFactory a keyLen bloomBitsPerKey hashTableRatio indexSparseness w)
  | .ReadOptions_SetVerifyChecksums b => .done (ro.SetVerifyChecksums b w)
  | .ReadOptions_SetFillCache b => .done (ro.SetFillCache b w)
  | .ReadOptions_SetSnapshot snap => .done (ro.SetSnapshot snap w)
  | .WriteOptions_SetSync b => .done (wo.SetSync b w)

/-- The native function in the body of each setter method. -/
def Method.native : Method → NativeFn
  | .Options_SetComparator => .rocksdb_options_set_comparator
  | .Options_SetCreateIfMissing => .rocksdb_options_set_create_if_missing
  | .Options_SetErrorIfExists => .rocksdb_options_set_error_if_exists
  | .Options_SetParanoidChecks => .rocksdb_options_set_paranoid_checks
  | .Options_SetEnv => .rocksdb_options_set_env
  | .Options_SetInfoLog => .rocksdb_options_set_info_log
  | .Options_SetFilterPolicy => .rocksdb_options_set_filter_policy
  | .Options_SetInfoLogLevel => .rocksdb_options_set_info_log_level
  | .Options_SetWriteBufferSize => .rocksdb_options_set_write_buffer_size
  | .Options_SetMaxWriteBufferNumber => .rocksdb_options_set_max_write_buffer_number
  | .Options_SetMinWriteBufferNumberToMerge => .rocksdb_options_set_min_write_buffer_number_to_merge
  | .Options_SetMaxOpenFiles => .rocksdb_options_set_max_open_files
  | .Options_SetCache => .rocksdb_options_set_cache
  | .Options_SetCacheCompressed => .rocksdb_options_set_cache_compressed
  | .Options_SetBlockSize => .rocksdb_options_set_block_size
  | .Options_SetBlockRestartInterval => .rocksdb_options_set_block_restart_interval
  | .Options_SetCompression => .rocksdb_options_set_compression
  | .Options_SetCompressionPerLevel => .rocksdb_options_set_compression_per_level
  | .Options_SetMinLevelToCompress => .rocksdb_options_set_min_level_to_compress
  | .Options_SetWholeKeyFiltering => .rocksdb_options_set_whole_key_filtering
  | .Options_SetNumLevels => .rocksdb_options_set_num_levels
  | .Options_SetLevel0FileNumCompactionTrigger => .rocksdb_options_set_level0_file_num_compaction_trigger
  | .Options_SetLevel0SlowdownWritesTrigger => .rocksdb_options_set_level0_slowdown_writes_trigger
  | .Options_SetLevel0StopWritesTrigger => .rocksdb_options_set_level0_stop_writes_trigger
  | .Options_SetMaxMemCompactionLevel => .rocksdb_options_set_max_mem_compaction_level
  | .Options_SetTargetFileSizeBase => .rocksdb_options_set_target_file_size_base
  | .Options_SetTargetFileSizeMultiplier => .rocksdb_options_set_target_file_size_multiplier
  | .Options_SetMaxBytesForLevelBase => .rocksdb_options_set_max_bytes_for_level_base
  | .Options_SetMaxBytesForLevelMultiplier => .rocksdb_options_set_max_bytes_for_level_multiplier
  | .Options_SetMaxBytesForLevelMultiplierAdditional => .rocksdb_options_set_max_bytes_for_level_multiplier_additional
  | .Options_SetExpandedCompactionFactor => .rocksdb_options_set_expanded_compaction_factor
  | .Options_SetSourceCompactionFactor => .rocksdb_options_set_source_compaction_factor
  | .Options_SetMaxGrandparentOverlapFactor => .rocksdb_options_set_max_grandparent_overlap_factor
  | .Options_SetDisableDataSync => .rocksdb_options_set_disable_data_sync
  | .Options_SetUseFsync => .rocksdb_options_set_use_fsync
  | .Options_SetDbStatsLogInterval => .rocksdb_options_set_db_stats_log_interval
  | .Options_SetDbLogDir => .rocksdb_options_set_db_log_dir
  | .Options_SetWalDir => .rocksdb_options_set_wal_dir
  | .Options_SetDisableSeekCompaction => .rocksdb_options_set_disable_seek_compaction
  | .Options_SetDeleteObsoleteFilesPeriodMicros => .rocksdb_options_set_delete_obsolete_files_period_micros
  | .Options_SetMaxBackgroundCompactions => .rocksdb_options_set_max_background_compactions
  | .Options_SetMaxBackgroundFlushes => .rocksdb_options_set_max_background_flushes
  | .Options_SetMaxLogFileSize => .rocksdb_options_set_max_log_file_size
  | .Options_SetLogFileTimeToRoll => .rocksdb_options_set_log_file_time_to_roll
  | .Options_SetKeepLogFileNum => .rocksdb_options_set_keep_log_file_num
  | .Options_SetSoftRateLimit => .rocksdb_options_set_soft_rate_limit
  | .Options_SetHardRateLimit => .rocksdb_options_set_hard_rate_limit
  | .Options_SetRateLimitDelayMaxMilliseconds => .rocksdb_options_set_rate_limit_delay_max_milliseconds
  | .Options_SetMaxManifestFileSize => .rocksdb_options_set_max_manifest_file_size
  | .Options_SetNoBlockCache => .rocksdb_options_set_no_block_cache
  | .Options_SetTableCacheNumshardbits => .rocksdb_options_set_table_cache_numshardbits
  | .Options_SetTableCacheRemoveScanCountLimit => .rocksdb_options_set_table_cache_remove_scan_count_limit
  | .Options_SetArenaBlockSize => .rocksdb_options_set_arena_block_size
  | .Options_SetDisableAutoCompactions => .rocksdb_options_set_disable_auto_compactions
  | .Options_SetWALTtlSeconds => .rocksdb_options_set_WAL_ttl_seconds
  | .Options_SetWalSizeLimitMb => .rocksdb_options_set_WAL_size_limit_MB
  | .Options_SetManifestPreallocationSize => .rocksdb_options_set_manifest_preallocation_size
  | .Options_SetPurgeRedundantKvsWhileFlush => .rocksdb_options_set_purge_redundant_kvs_while_flush
  | .Options_SetAllowOsBuffer => .rocksdb_options_set_allow_os_buffer
  | .Options_SetAllowMmapReads => .rocksdb_options_set_allow_mmap_reads
  | .Options_SetAllowMmapWrites => .rocksdb_options_set_allow_mmap_writes
  | .Options_SetIsFdCloseOnExec => .rocksdb_options_set_is_fd_close_on_exec
  | .Options_SetSkipLogErrorOnRecovery => .rocksdb_options_set_skip_log_error_on_recovery
  | .Options_SetStatsDumpPeriodSec => .rocksdb_options_set_stats_dump_period_sec
  | .Options_SetBlockSizeDeviation => .rocksdb_options_set_block_size_deviation
  | .Options_SetAdviseRandomOnOpen => .rocksdb_options_set_advise_random_on_open
  | .Options_SetAccessHintOnCompactionStart => .rocksdb_options_set_access_hint_on_compaction_start
  | .Options_SetUseAdaptiveMutex => .rocksdb_options_set_use_adaptive_mutex
  | .Options_SetBytesPerSync => .rocksdb_options_set_bytes_per_sync
  | .Options_SetCompactionStyle => .rocksdb_options_set_compaction_style
  | .Options_SetUniversalCompactionOptions => .rocksdb_options_set_universal_compaction_options
  | .Options_SetVerifyChecksumsInCompaction => .rocksdb_options_set_verify_checksums_in_compaction
  | .Options_SetFilterDeletes => .rocksdb_options_set_filter_deletes
  | .Options_SetMaxSequentialSkipInIterations => .rocksdb_options_set_max_sequential_skip_in_iterations
  | .Options_SetInplaceUpdateSupport => .rocksdb_options_set_inplace_update_support
  | .Options_SetInplaceUpdateNumLocks => .rocksdb_options_set_inplace_update_num_locks
  | .Options_SetMemtablePrefixBloomBits => .rocksdb_options_set_memtable_prefix_bloom_bits
  | .Options_SetMemtablePrefixBloomProbes => .rocksdb_options_set_memtable_prefix_bloom_probes
  | .Options_SetBloomLocality => .rocksdb_options_set_bloom_locality
  | .Options_SetMaxSuccessiveMerges => .rocksdb_options_set_max_successive_merges
  | .Options_SetMinPartialMergeOperands => .rocksdb_options_set_min_partial_merge_operands
  | .Options_SetAllowThreadLocal => .rocksdb_options_set_allow_thread_local
  | .Options_EnableStatistics => .rocksdb_options_enable_statistics
  | .Options_PrepareForBulkLoad => .rocksdb_options_prepare_for_bulk_load
  | .Options_SetMemtableVectorRep => .rocksdb_options_set_memtable_vector_rep
  | .Options_SetHashSkipListRep => .rocksdb_options_set_hash_skip_list_rep
  | .Options_SetHashLinkListRep => .rocksdb_options_set_hash_link_list_rep
  | .Options_SetPlainTableFactory => .rocksdb_options_set_plain_table_factory
  | .ReadOptions_SetVerifyChecksums => .rocksdb_readoptions_set_verify_checksums
  | .ReadOptions_SetFillCache => .rocksdb_readoptions_set_fill_cache
  | .ReadOptions_SetSnapshot => .rocksdb_readoptions_set_snapshot
  | .WriteOptions_SetSync => .rocksdb_writeoptions_set_sync

/-- The setter methods, in the order of `options.go`. -/
def allMethods : List Method :=
  [Method.Options_SetComparator,
   Method.Options_SetCreateIfMissing,
   Method.Options_SetErrorIfExists,
   Method.Options_SetParanoidChecks,
   Method.Options_SetEnv,
   Method.Options_SetInfoLog,
   Method.Options_SetFilterPolicy,
   Method.Options_SetInfoLogLevel,
   Method.Options_SetWriteBufferSize,
   Method.Options_SetMaxWriteBufferNumber,
   Method.Options_SetMinWriteBufferNumberToMerge,
   Method.Options_SetMaxOpenFiles,
   Method.Options_SetCache,
   Method.Options_SetCacheCompressed,
   Method.Options_SetBlockSize,
   Method.Options_SetBlockRestartInterval,
   Method.Options_SetCompression,
   Method.Options_SetCompressionPerLevel,
   Method.Options_SetMinLevelToCompress,
   Method.Options_SetWholeKeyFiltering,
   Method.Options_SetNumLevels,
   Method.Options_SetLevel0FileNumCompactionTrigger,
   Method.Options_SetLevel0SlowdownWritesTrigger,
   Method.Options_SetLevel0StopWritesTrigger,
   Method.Options_SetMaxMemCompactionLevel,
   Method.Options_SetTargetFileSizeBase,
   Method.Options_SetTargetFileSizeMultiplier,
   Method.Options_SetMaxBytesForLevelBase,
   Method.Options_SetMaxBytesForLevelMultiplier,
   Method.Options_SetMaxBytesForLevelMultiplierAdditional,
   Method.Options_SetExpandedCompactionFactor,
   Method.Options_SetSourceCompactionFactor,
   Method.Options_SetMaxGrandparentOverlapFactor,
   Method.Options_SetDisableDataSync,
   Method.Options_SetUseFsync,
   Method.Options_SetDbStatsLogInterval,
   Method.Options_SetDbLogDir,
   Method.Options_SetWalDir,
   Method.Options_SetDisableSeekCompaction,
   Method.Options_SetDeleteObsoleteFilesPeriodMicros,
   Method.Options_SetMaxBackgroundCompactions,
   Method.Options_SetMaxBackgroundFlushes,
   Method.Options_SetMaxLogFileSize,
   Method.Options_SetLogFileTimeToRoll,
   Method.Options_SetKeepLogFileNum,
   Method.Options_SetSoftRateLimit,
   Method.Options_SetHardRateLimit,
   Method.Options_SetRateLimitDelayMaxMilliseconds,
   Method.Options_SetMaxManifestFileSize,
   Method.Options_SetNoBlockCache,
   Method.Options_SetTableCacheNumshardbits,
   Method.Options_SetTableCacheRemoveScanCountLimit,
   Method.Options_SetArenaBlockSize,
   Method.Options_SetDisableAutoCompactions,
   Method.Options_SetWALTtlSeconds,
   Method.Options_SetWalSizeLimitMb,
   Method.Options_SetManifestPreallocationSize,
   Method.Options_SetPurgeRedundantKvsWhileFlush,
   Method.Options_SetAllowOsBuffer,
   Method.Options_SetAllowMmapReads,
   Method.Options_SetAllowMmapWrites,
   Method.Options_SetIsFdCloseOnExec,
   Method.Options_SetSkipLogErrorOnRecovery,
   Method.Options_SetStatsDumpPeriodSec,
   Method.Options_SetBlockSizeDeviation,
   Method.Options_SetAdviseRandomOnOpen,
   Method.Options_SetAccessHintOnCompactionStart,
   Method.Options_SetUseAdaptiveMutex,
   Method.Options_SetBytesPerSync,
   Method.Options_SetCompactionStyle,
   Method.Options_SetUniversalCompactionOptions,
   Method.Options_SetVerifyChecksumsInCompaction,
   Method.Options_SetFilterDeletes,
   Method.Options_SetMaxSequentialSkipInIterations,
   Method.Options_SetInplaceUpdateSupport,
   Method.Options_SetInplaceUpdateNumLocks,
   Method.Options_SetMemtablePrefixBloomBits,
   Method.Options_SetMemtablePrefixBloomProbes,
   Method.Options_SetBloomLocality,
   Method.Options_SetMaxSuccessiveMerges,
   Method.Options_SetMinPartialMergeOperands,
   Method.Options_SetAllowThreadLocal,
   Method.Options_EnableStatistics,
   Method.Options_PrepareForBulkLoad,
   Method.Options_SetMemtableVectorRep,
   Method.Options_SetHashSkipListRep,
   Method.Options_SetHashLinkListRep,
   Method.Options_SetPlainTableFactory,
   Method.ReadOptions_SetVerifyChecksums,
   Method.ReadOptions_SetFillCache,
   Method.ReadOptions_SetSnapshot,
   Method.WriteOptions_SetSync]

/-- The native pointer of the receiver of each method. -/
def Method.handle (o : Options) (ro : ReadOptions) (wo : WriteOptions) : Method → Nat
  | .ReadOptions_SetVerifyChecksums | .ReadOptions_SetFillCache
  | .ReadOptions_SetSnapshot => ro.Opt
  | .WriteOptions_SetSync => wo.Opt
  | _ => o.Opt

/-- The calls whose argument the method cannot hand on: an empty slice for the
two array setters, whose first element is addressed, and a nil pointer for the
four setters that read a field through the pointer. -/
def SetterCall.unforwardable : SetterCall → Bool
  | .Options_SetCompressionPerLevel [] => true
  | .Options_SetMaxBytesForLevelMultiplierAdditional [] => true
  | .Options_SetEnv none => true
  | .Options_SetCache none => true
  | .Options_SetCacheCompressed none => true
  | .Options_SetUniversalCompactionOptions none => true
  | _ => false

/-- The native calls made by the time a method call ends. -/
def Outcome.world : Outcome → World
  | .done w => w
  | .panicked _ w => w

/-! ### Memtable representations -/

/-- A call of one of the four representation setters, with its arguments. -/
inductive MemtableCall where
  | SetMemtableVectorRep
  | SetHashSkipListRep (bucketCount : Int) (skiplistHeight : Int)
      (skiplistBranchingFactor : Int)
  | SetHashLinkListRep (bucketCount : Int)
  | SetPlainTableFactory (keyLen : Nat) (bloomBitsPerKey : Int) (hashTableRatio : Float64)
      (indexSparseness : Int)
  deriving DecidableEq, Repr

/-- Runs a call of a representation setter on `o`. -/
def MemtableCall.run (a : Arch) (o : Options) (c : MemtableCall) (w : World) : World :=
  match c with
  | .SetMemtableVectorRep => o.SetMemtableVectorRep w
  | .SetHashSkipListRep bucketCount skiplistHeight skiplistBranchingFactor =>
    o.SetHashSkipListRep a bucketCount skiplistHeight skiplistBranchingFactor w
  | .SetHashLinkListRep bucketCount => o.SetHashLinkListRep a bucketCount w
  | .SetPlainTableFactory keyLen bloomBitsPerKey hashTableRatio indexSparseness =>
    o.SetPlainTableFactory a keyLen bloomBitsPerKey hashTableRatio indexSparseness w

/-- Runs a sequence of calls of representation setters on `o`, in order. -/
def runMemtableCalls (a : Arch) (o : Options) (cs : List MemtableCall) (w : World) : World :=
  cs.foldl (fun w c => c.run a o w) w

/-- A representation with its parameters, as the native object holds them. -/
inductive Representation where
  | vector
  | hashSkipList (bucketCount : Nat) (skiplistHeight : Int) (skiplistBranchingFactor : Int)
  | hashLinkList (bucketCount : Nat)
  | plainTable (keyLen : Nat) (bloomBitsPerKey : Int) (hashTableRatio : Float64)
      (indexSparseness : Nat)
  deriving DecidableEq, Repr

/-- The representation that a call chooses, in the words of the claim: the one
the method is named after, with the arguments of the call, each as a value of
the C type of the native parameter. -/
def MemtableCall.chosen (a : Arch) : MemtableCall → Representation
  | .SetMemtableVectorRep => .vector
  | .SetHashSkipListRep bucketCount skiplistHeight skiplistBranchingFactor =>
    .hashSkipList (wrapUnsigned a.bits bucketCount) (wrapSigned 32 skiplistHeight)
      (wrapSigned 32 skiplistBranchingFactor)
  | .SetHashLinkListRep bucketCount => .hashLinkList (wrapUnsigned a.bits bucketCount)
  | .SetPlainTableFactory keyLen bloomBitsPerKey hashTableRatio indexSparseness =>
    .plainTable (wrapUnsigned 32 keyLen) (wrapSigned 32 bloomBitsPerKey) hashTableRatio
      (wrapUnsigned a.bits indexSparseness)

/-- Modelled from the spec: the native object is outside the repository.  What a
native call selects, and in which native object: each of the four selecting
functions of `rocksdb/c.h` selects the representation it is named after, with
the parameters it is given; no other call selects one. -/
def NativeCall.selects (c : NativeCall) : Option (Nat × Representation) :=
  if c.fn = .rocksdb_options_set_memtable_vector_rep then
    match c.args with
    | [.ptr opt] => some (opt, .vector)
    | _ => none
  else if c.fn = .rocksdb_options_set_hash_skip_list_rep then
    match c.args with
    | [.ptr opt, .size_t n, .int32 h, .int32 b] => some (opt, .hashSkipList n h b)
    | _ => none
  else if c.fn = .rocksdb_options_set_hash_link_list_rep then
    match c.args with
    | [.ptr opt, .size_t n] => some (opt, .hashLinkList n)
    | _ => none
  else if c.fn = .rocksdb_options_set_plain_table_factory then
    match c.args with
    | [.ptr opt, .uint32 k, .int b, .double r, .size_t s] => some (opt, .plainTable k b r s)
    | _ => none
  else none

/-- Modelled from the spec: the native object is outside the repository, and in
it "selecting one after another silently overrides the previous choice".  The
representation the native object behind `opt` holds is the one that the most
recent selecting call on `opt` selected. -/
def World.selectedRep (w : World) (opt : Nat) : Option Representation :=
  ((w.reverse.filterMap NativeCall.selects).find? (fun s => s.1 = opt)).map (fun s => s.2)

/-! ### Handles in the heap -/

/-- The handles that the program holds: the Go structs behind the pointers
`*Options`, `*ReadOptions` and `*WriteOptions`, each list indexed by address. -/
structure Handles where
  options : List Options
  readOptions : List ReadOptions
  writeOptions : List WriteOptions
  deriving DecidableEq, Repr

/-- A pointer to a handle: its type and its address.  An address that holds no
struct is a nil pointer. -/
inductive HandleRef where
  | options (i : Nat)
  | readOptions (i : Nat)
  | writeOptions (i : Nat)
  deriving DecidableEq, Repr

/-- The method `Close` called through the pointer `r`: the struct behind the
pointer is left as `Close` leaves its receiver. -/
def Handles.close (h : Handles) (r : HandleRef) (w : World) : Handles × Outcome :=
  match r with
  | .options i =>
    match h.options[i]? with
    | none => (h, .panicked .nilDereference w)
    | some o =>
      let res := o.Close w
      ({ h with options := h.options.set i res.1 }, .done res.2)
  | .readOptions i =>
    match h.readOptions[i]? with
    | none => (h, .panicked .nilDereference w)
    | some ro =>
      let res := ro.Close w
      ({ h with readOptions := h.readOptions.set i res.1 }, .done res.2)
  | .writeOptions i =>
    match h.writeOptions[i]? with
    | none => (h, .panicked .nilDereference w)
    | some wo =>
      let res := wo.Close w
      ({ h with writeOptions := h.writeOptions.set i res.1 }, .done res.2)

/-- A sequence of `n` calls of `Close` on one `Options`. -/
def Options.closeTimes (o : Options) : Nat → World → Options × World
  | 0, w => (o, w)
  | n + 1, w =>
    let res := o.Close w
    res.1.closeTimes n res.2

/-- A sequence of `n` calls of `Close` on one `ReadOptions`. -/
def ReadOptions.closeTimes (ro : ReadOptions) : Nat → World → ReadOptions × World
  | 0, w => (ro, w)
  | n + 1, w =>
    let res := ro.Close w
    res.1.closeTimes n res.2

/-- A sequence of `n` calls of `Close` on one `WriteOptions`. -/
def WriteOptions.closeTimes (wo : WriteOptions) : Nat → World → WriteOptions × World
  | 0, w => (wo, w)
  | n + 1, w =>
    let res := wo.Close w
    res.1.closeTimes n res.2

/-! ## The database handle -/

/-- Modelled from the spec: the database handle of the repository (`Open`,
`Put`, `Get`) is not among the source files.  Its state machine is
"unopened → open → closed, single-directional". -/
inductive DBState where
  | unopened
  | isOpen
  | closed
  deriving DecidableEq, Repr

/-- Modelled from the spec: the database handle, whose code is not among the
source files: its state and the records the engine holds, as "byte-string keys
and values", at most one record for a key. -/
structure DB where
  state : DBState
  records : List (List Nat × List Nat)
  deriving DecidableEq, Repr

/-- Modelled from the spec: what `Get` returns, "value|NotFound|error"; the
absent function `Get` decides it.  The error here is the "programmer error" of
an operation on a handle that is not open. -/
inductive GetResult where
  | value (v : List Nat)
  | notFound
  | notOpen
  deriving DecidableEq, Repr

/-- Modelled from the spec: `Put(WriteOptions, key, value) -> error|ok`, whose
code is not among the source files: it "upserts", on an open handle.  An I/O
failure of the engine is an event of the environment and has no part in the
model. -/
def DB.Put (db : DB) (_wo : WriteOptions) (key value : List Nat) : Option DB :=
  match db.state with
  | .isOpen =>
    some { db with records := (key, value) :: db.records.filter (fun r => r.1 != key) }
  | _ => none

/-- Modelled from the spec: `Get(ReadOptions, key) -> value|NotFound|error`, whose
code is not among the source files: it "returns NotFound (not an error) when
the key is absent; otherwise returns the current value visible under the given
ReadOptions' snapshot (or latest, if none)".  `snapshot` is the view that the
`ReadOptions` refers to, `none` for a snapshot-free one. -/
def DB.Get (db : DB) (_ro : ReadOptions) (snapshot : Option (List (List Nat × List Nat)))
    (key : List Nat) : GetResult :=
  match db.state with
  | .isOpen =>
    let visible := match snapshot with
      | some view => view
      | none => db.records
    match visible.find? (fun r => r.1 == key) with
    | some r => .value r.2
    | none => .notFound
  | _ => .notOpen

/-! ## Theorems -/

/-- C1: decoding the one-byte encoding of a boolean returns the boolean:
`ucharToBool (boolToUchar b) = b` for every `b`. -/
theorem ucharToBool_boolToUchar (b : Bool) : ucharToBool (boolToUchar b) = b := by
  cases b <;> decide

/-- C2: for a byte `uc` that is `0` or `1`, `boolToUchar (ucharToBool uc) = uc`;
`boolToUchar` returns no byte other than `0` and `1`; and the encoding is a
bijection between the booleans and the bytes `0` and `1`: it is injective and
a byte is `0` or `1` exactly when it encodes some boolean. -/
theorem boolToUchar_ucharToBool (uc : Nat) (h : uc = 0 ∨ uc = 1) :
    boolToUchar (ucharToBool uc) = uc
    ∧ (∀ b : Bool, boolToUchar b = 0 ∨ boolToUchar b = 1)
    ∧ Function.Injective boolToUchar
    ∧ (∀ v : Nat, (v = 0 ∨ v = 1) ↔ ∃ b : Bool, boolToUchar b = v) := by
  refine ⟨?_, ?_, ?_, ?_⟩
  · rcases h with rfl | rfl <;> decide
  · intro b; cases b <;> decide
  · intro x y hxy
    cases x <;> cases y <;> first | rfl | exact absurd hxy (by decide)
  · intro v
    constructor
    · rintro (rfl | rfl)
      · exact ⟨false, by decide⟩
      · exact ⟨true, by decide⟩
    · rintro ⟨b, rfl⟩
      cases b
      · left; decide
      · right; decide

theorem boolToUchar_ucharToBool_witness :
    ((1 : Nat) = 0 ∨ (1 : Nat) = 1) ∧ boolToUchar (ucharToBool 1) = 1 :=
  ⟨by decide, (boolToUchar_ucharToBool 1 (by decide)).1⟩

/-- C3: `btoi b` is `1` when `b` is true and `0` when `b` is false, and no
other integer is returned. -/
theorem btoi_values :
    btoi true = 1 ∧ btoi false = 0 ∧ ∀ b : Bool, btoi b = 0 ∨ btoi b = 1 := by
  refine ⟨by decide, by decide, ?_⟩
  intro b; cases b
  · left; decide
  · right; decide

/-- C4: the four enumerations carry the engine ordinals, `NoCompression = 0`,
`SnappyCompression = 1`, `ZlibCompression = 2`, `BZip2Compression = 3`,
`LevelCompactionStyle = 0`, `UniversalCompactionStyle = 1`, the access patterns
none, normal, sequential, willneed `= 0, 1, 2, 3`, the log levels debug, info,
warn, error, fatal `= 0, 1, 2, 3, 4`, and the constants of each enumeration are
pairwise distinct. -/
theorem enum_ordinals :
    (NoCompression.val = 0 ∧ SnappyCompression.val = 1 ∧ ZlibCompression.val = 2
      ∧ BZip2Compression.val = 3)
    ∧ (LevelCompactionStyle.val = 0 ∧ UniversalCompactionStyle.val = 1)
    ∧ (NoneCompactionAccessPattern.val = 0 ∧ NormalCompactionAccessPattern.val = 1
      ∧ SequentialCompactionAccessPattern.val = 2 ∧ WillneedCompactionAccessPattern.val = 3)
    ∧ (DebugInfoLogLevel.val = 0 ∧ InfoInfoLogLevel.val = 1 ∧ WarnInfoLogLevel.val = 2
      ∧ ErrorInfoLogLevel.val = 3 ∧ FatalInfoLogLevel.val = 4)
    ∧ [NoCompression, SnappyCompression, ZlibCompression, BZip2Compression].Nodup
    ∧ [LevelCompactionStyle, UniversalCompactionStyle].Nodup
    ∧ [NoneCompactionAccessPattern, NormalCompactionAccessPattern,
        SequentialCompactionAccessPattern, WillneedCompactionAccessPattern].Nodup
    ∧ [DebugInfoLogLevel, InfoInfoLogLevel, WarnInfoLogLevel, ErrorInfoLogLevel,
        FatalInfoLogLevel].Nodup := by
  decide

/-! ### Conversions inside their range -/

theorem toCInt_of_range (v : Int) (h0 : -2147483648 ≤ v) (h1 : v < 2147483648) :
    toCInt v = v := by
  unfold toCInt wrapSigned
  norm_num
  omega

theorem toCSizeT_of_nat (a : Arch) (n : Nat) (h : InGoInt a n) : toCSizeT a n = n := by
  unfold InGoInt at h
  unfold toCSizeT wrapUnsigned
  cases a <;> simp [Arch.bits] at h ⊢ <;> omega

theorem toCInt_btoi (b : Bool) : toCInt (btoi b) = btoi b := by
  cases b <;> decide

/-! ### The range loop and the trace -/

theorem fillLevels_ok {α : Type} (conv : α → Int) :
    ∀ (xs : List α) (i : Nat) (c : List Int), i + xs.length = c.length →
      fillLevels conv i xs c = .ok (c.take i ++ xs.map conv) := by
  intro xs
  induction xs with
  | nil =>
    intro i c h
    simp at h
    simp [fillLevels, h]
  | cons x xs ih =>
    intro i c h
    simp at h
    have hi : i < c.length := by omega
    have htake : (c.set i (conv x)).take i = c.take i := by
      rw [List.set_take, List.set_eq_of_length_le]
      simp
    rw [fillLevels, if_pos hi, ih (i + 1) (c.set i (conv x)) (by simp; omega)]
    congr 1
    rw [List.take_succ, htake]
    simp [hi]

theorem fillLevels_make {α : Type} (conv : α → Int) (value : List α) :
    fillLevels conv 0 value (makeCInts value.length) = .ok (value.map conv) := by
  rw [fillLevels_ok conv value 0 _ (by simp [makeCInts])]
  simp

theorem current_call (w : World) (fn : NativeFn) (opt : Nat) (rest : List CVal) :
    World.current (C.call fn (.ptr opt :: rest) w) fn opt = some rest := by
  simp [C.call, World.current]

/-! ### Enumeration and integer setters -/

/-- C5: for a declared constant of `CompressionType`, `CompactionStyle`,
`CompactionAccessPattern` or `InfoLogLevel`, the setter of that enumeration
makes exactly one native call, whose integer argument is the ordinal of the
constant, and the native object then holds that ordinal for the option. -/
theorem enum_setters_pass_ordinal (o : Options) (w : World)
    (c : CompressionType) (s : CompactionStyle) (p : CompactionAccessPattern)
    (l : InfoLogLevel) (hc : c ∈ compressionTypes) (hs : s ∈ compactionStyles)
    (hp : p ∈ compactionAccessPatterns) (hl : l ∈ infoLogLevels) :
    (o.SetCompression c w
        = w ++ [⟨.rocksdb_options_set_compression, [.ptr o.Opt, .int c.val]⟩]
      ∧ (o.SetCompression c w).current .rocksdb_options_set_compression o.Opt
        = some [.int c.val])
    ∧ (o.SetCompactionStyle s w
        = w ++ [⟨.rocksdb_options_set_compaction_style, [.ptr o.Opt, .int s.val]⟩]
      ∧ (o.SetCompactionStyle s w).current .rocksdb_options_set_compaction_style o.Opt
        = some [.int s.val])
    ∧ (o.SetAccessHintOnCompactionStart p w
        = w ++ [⟨.rocksdb_options_set_access_hint_on_compaction_start,
            [.ptr o.Opt, .int p.val]⟩]
      ∧ (o.SetAccessHintOnCompactionStart p w).current
          .rocksdb_options_set_access_hint_on_compaction_start o.Opt = some [.int p.val])
    ∧ (o.SetInfoLogLevel l w
        = w ++ [⟨.rocksdb_options_set_info_log_level, [.ptr o.Opt, .int l.val]⟩]
      ∧ (o.SetInfoLogLevel l w).current .rocksdb_options_set_info_log_level o.Opt
        = some [.int l.val]) := by
  have e1 : toCInt c.val = c.val := (by decide : ∀ x ∈ compressionTypes, toCInt x.val = x.val) c hc
  have e2 : toCInt s.val = s.val := (by decide : ∀ x ∈ compactionStyles, toCInt x.val = x.val) s hs
  have e3 : toCInt p.val = p.val :=
    (by decide : ∀ x ∈ compactionAccessPatterns, toCInt x.val = x.val) p hp
  have e4 : toCInt l.val = l.val := (by decide : ∀ x ∈ infoLogLevels, toCInt x.val = x.val) l hl
  refine ⟨⟨?_, ?_⟩, ⟨?_, ?_⟩, ⟨?_, ?_⟩, ⟨?_, ?_⟩⟩
  · simp only [Options.SetCompression, e1, C.call]
  · simp only [Options.SetCompression, e1, current_call]
  · simp only [Options.SetCompactionStyle, e2, C.call]
  · simp only [Options.SetCompactionStyle, e2, current_call]
  · simp only [Options.SetAccessHintOnCompactionStart, e3, C.call]
  · simp only [Options.SetAccessHintOnCompactionStart, e3, current_call]
  · simp only [Options.SetInfoLogLevel, e4, C.call]
  · simp only [Options.SetInfoLogLevel, e4, current_call]

theorem enum_setters_pass_ordinal_witness :
    (ZlibCompression ∈ compressionTypes ∧ UniversalCompactionStyle ∈ compactionStyles
      ∧ WillneedCompactionAccessPattern ∈ compactionAccessPatterns
      ∧ FatalInfoLogLevel ∈ infoLogLevels)
    ∧ Options.SetCompression ⟨7⟩ ZlibCompression []
        = [⟨.rocksdb_options_set_compression, [.ptr 7, .int 2]⟩]
    ∧ Options.SetInfoLogLevel ⟨7⟩ FatalInfoLogLevel []
        = [⟨.rocksdb_options_set_info_log_level, [.ptr 7, .int 4]⟩] :=
  have h := enum_setters_pass_ordinal ⟨7⟩ [] ZlibCompression UniversalCompactionStyle
    WillneedCompactionAccessPattern FatalInfoLogLevel (by decide) (by decide) (by decide)
    (by decide)
  ⟨by decide, h.1.1, h.2.2.2.1⟩

/-- C6, as the code has it: for every non-negative value below `2 ^ 31` (every
non-negative value of the host `int` where that type is 32 bits wide), each
setter that converts a Go `int` with `C.int` makes exactly one native call, on
the pointer of the handle, and passes to it the value it was given. -/
theorem int_setter_forwards (s : IntSetter) (o : Options) (w : World) (v : Int)
    (h0 : 0 ≤ v) (h1 : v < 2147483648) :
    ∃ fn, s.run o v w = w ++ [⟨fn, [.ptr o.Opt, .int v]⟩] := by
  have key : ∃ fn, s.run o v w = w ++ [⟨fn, [.ptr o.Opt, .int (toCInt v)]⟩] := by
    cases s <;> exact ⟨_, rfl⟩
  rwa [toCInt_of_range v (by omega) h1] at key

theorem int_setter_forwards_witness :
    (0 : Int) ≤ 1000 ∧ (1000 : Int) < 2147483648
    ∧ ∃ fn, IntSetter.run .SetMaxOpenFiles ⟨7⟩ 1000 [] = [] ++ [⟨fn, [.ptr 7, .int 1000]⟩] :=
  ⟨by decide, by decide, int_setter_forwards .SetMaxOpenFiles ⟨7⟩ [] 1000 (by decide) (by decide)⟩

/-- C6, as stated, fails: `2 ^ 31` is a non-negative value of the host `int` on
a 64-bit platform, and `SetMaxOpenFiles`, `SetMaxWriteBufferNumber` and
`SetNumLevels` pass `-2 ^ 31` to the native setter for it. -/
theorem int_setter_truncates :
    InGoInt .bits64 2147483648 ∧ (0 : Int) ≤ 2147483648
    ∧ Options.SetMaxOpenFiles ⟨7⟩ 2147483648 []
        = [⟨.rocksdb_options_set_max_open_files, [.ptr 7, .int (-2147483648)]⟩]
    ∧ Options.SetMaxWriteBufferNumber ⟨7⟩ 2147483648 []
        = [⟨.rocksdb_options_set_max_write_buffer_number, [.ptr 7, .int (-2147483648)]⟩]
    ∧ Options.SetNumLevels ⟨7⟩ 2147483648 []
        = [⟨.rocksdb_options_set_num_levels, [.ptr 7, .int (-2147483648)]⟩]
    ∧ (-2147483648 : Int) ≠ 2147483648 := by
  decide

/-! ### Array-valued setters -/

/-- C7, as the code has it: for every non-empty list of `CompressionType`
values whose ordinals are all below `2 ^ 31` (the declared constants are),
`SetCompressionPerLevel` makes one native call, with an array of the same
length whose `i`-th element is the ordinal of the `i`-th input value, in the
same order, and with a length argument equal to the length of the input (the
length of a slice is a host `int`); the input list is left as it was. -/
theorem compression_per_level_forwards (a : Arch) (o : Options) (w : World)
    (value : List CompressionType) (hne : value ≠ []) (hlen : InGoInt a value.length)
    (hval : ∀ v ∈ value, v.val < 2147483648) :
    o.SetCompressionPerLevel a value w
      = (value, .done (w ++ [⟨.rocksdb_options_set_compression_per_level,
          [.ptr o.Opt, .intArray (value.map (fun v => (v.val : Int))),
           .size_t value.length]⟩])) := by
  have hmap : value.map (fun v => toCInt v.val) = value.map (fun v => (v.val : Int)) := by
    apply List.map_congr_left
    intro v hv
    exact toCInt_of_range v.val (by omega) (by have := hval v hv; omega)
  unfold Options.SetCompressionPerLevel
  simp only [fillLevels_make, hmap, toCSizeT_of_nat a value.length hlen]
  cases value with
  | nil => exact absurd rfl hne
  | cons x xs => rfl

theorem compression_per_level_forwards_witness :
    ([SnappyCompression, NoCompression, BZip2Compression] ≠ []
      ∧ InGoInt .bits64 ([SnappyCompression, NoCompression, BZip2Compression].length))
    ∧ Options.SetCompressionPerLevel .bits64 ⟨7⟩
        [SnappyCompression, NoCompression, BZip2Compression] []
      = ([SnappyCompression, NoCompression, BZip2Compression],
          .done [⟨.rocksdb_options_set_compression_per_level,
            [.ptr 7, .intArray [1, 0, 3], .size_t 3]⟩]) :=
  ⟨by decide, compression_per_level_forwards .bits64 ⟨7⟩ []
    [SnappyCompression, NoCompression, BZip2Compression] (by decide) (by decide) (by decide)⟩

/-- C7, as stated, fails: `CompressionType(1 << 31)` is a value of the type
(its underlying type is `uint`), and for the list holding just that value
`SetCompressionPerLevel` passes an array whose element is `-2 ^ 31`, not the
ordinal `2 ^ 31`. -/
theorem compression_per_level_truncates :
    InGoUint .bits64 2147483648
    ∧ Options.SetCompressionPerLevel .bits64 ⟨7⟩ [⟨2147483648⟩] []
      = ([⟨2147483648⟩], .done [⟨.rocksdb_options_set_compression_per_level,
          [.ptr 7, .intArray [-2147483648], .size_t 1]⟩])
    ∧ (-2147483648 : Int) ≠ ((2147483648 : Nat) : Int) := by
  decide

/-- C8: called with an empty array, `SetCompressionPerLevel` and
`SetMaxBytesForLevelMultiplierAdditional` panic in the host layer (the index
expression for the first element is out of range) with no native call made;
called with a non-empty array they do not panic and make exactly one native
call. -/
theorem empty_array_panics (a : Arch) (o : Options) (w : World)
    (value : List CompressionType) (ints : List Int) (hv : value ≠ []) (hi : ints ≠ []) :
    (o.SetCompressionPerLevel a [] w).2 = .panicked .indexOutOfRange w
    ∧ (o.SetMaxBytesForLevelMultiplierAdditional a [] w).2 = .panicked .indexOutOfRange w
    ∧ (∃ args, (o.SetCompressionPerLevel a value w).2
        = .done (w ++ [⟨.rocksdb_options_set_compression_per_level, args⟩]))
    ∧ (∃ args, (o.SetMaxBytesForLevelMultiplierAdditional a ints w).2
        = .done (w ++ [⟨.rocksdb_options_set_max_bytes_for_level_multiplier_additional,
            args⟩])) := by
  refine ⟨rfl, rfl, ?_, ?_⟩
  · unfold Options.SetCompressionPerLevel
    simp only [fillLevels_make]
    cases value with
    | nil => exact absurd rfl hv
    | cons x xs => exact ⟨_, rfl⟩
  · unfold Options.SetMaxBytesForLevelMultiplierAdditional
    simp only [fillLevels_make]
    cases ints with
    | nil => exact absurd rfl hi
    | cons x xs => exact ⟨_, rfl⟩

theorem empty_array_panics_witness :
    ([ZlibCompression] ≠ [] ∧ [(10 : Int), -1] ≠ [])
    ∧ (Options.SetCompressionPerLevel .bits64 ⟨7⟩ [] []).2 = .panicked .indexOutOfRange [] :=
  ⟨by decide, (empty_array_panics .bits64 ⟨7⟩ [] [ZlibCompression] [10, -1]
    (by decide) (by decide)).1⟩

/-! ### Strings -/

/-- C9, on the code: `stringToChar` hands out the address of the bytes of the
string and appends nothing.  For `"logs/archive"[:4]`, the string `"logs"`,
the byte after the string is `/`, and a native call reading from the pointer
that `SetDbLogDir` passes, up to the first `0` byte, reads `logs/archive`. -/
theorem stringToChar_not_terminated :
    logsDir.bytes logsArchiveMemory = [108, 111, 103, 115]
    ∧ logsArchiveMemory[logsDir.Data + logsDir.Len]? = some 47
    ∧ Options.SetDbLogDir ⟨7⟩ logsDir []
        = [⟨.rocksdb_options_set_db_log_dir, [.ptr 7, .charPtr (stringToChar logsDir)]⟩]
    ∧ cString logsArchiveMemory (stringToChar logsDir)
        = [108, 111, 103, 115, 47, 97, 114, 99, 104, 105, 118, 101]
    ∧ cString logsArchiveMemory (stringToChar logsDir)
        ≠ logsDir.bytes logsArchiveMemory := by
  decide

/-! ### Boolean setters -/

/-- C10: every boolean setter makes exactly one native call, on the pointer of
its receiver, with the flag in one encoding fixed by the setter:
`SetDisableDataSync`, `SetUseFsync`, `SetDisableSeekCompaction` and
`SetDisableAutoCompactions` pass the integer `btoi b`, every other boolean
setter of `Options`, `ReadOptions` and `WriteOptions` passes the byte
`boolToUchar b`. -/
theorem bool_setter_encoding (s : BoolSetter) (o : Options) (ro : ReadOptions)
    (wo : WriteOptions) (b : Bool) (w : World) :
    ∃ fn p, p ∈ [o.Opt, ro.Opt, wo.Opt]
      ∧ s.run o ro wo b w
        = w ++ [⟨fn, [.ptr p,
            if s ∈ intFlagSetters then .int (btoi b) else .uchar (boolToUchar b)]⟩] := by
  cases s <;> cases b <;> exact ⟨_, _, by simp, rfl⟩

/-! ### Optional references -/

/-- C13: `ReadOptions.SetSnapshot` called with nil does not fail and passes the
null pointer to the native setter; called with a snapshot it passes the native
pointer of that snapshot.  Either way it makes exactly one native call, on the
pointer of the handle. -/
theorem set_snapshot_optional (ro : ReadOptions) (w : World) :
    ro.SetSnapshot none w
      = w ++ [⟨.rocksdb_readoptions_set_snapshot, [.ptr ro.Opt, .ptr 0]⟩]
    ∧ ∀ snap : Snapshot, ro.SetSnapshot (some snap) w
      = w ++ [⟨.rocksdb_readoptions_set_snapshot, [.ptr ro.Opt, .ptr snap.snap]⟩] :=
  ⟨rfl, fun _ => rfl⟩

/-- C17, on the code: `SetCache` and `SetCacheCompressed` called with a nil
`*Cache` panic on reading `cache.Cache` and make no native call; the sibling
`SetFilterPolicy` called with nil passes the null pointer. -/
theorem set_cache_nil_panics :
    Options.SetCache ⟨7⟩ none [] = .panicked .nilDereference []
    ∧ Options.SetCacheCompressed ⟨7⟩ none [] = .panicked .nilDereference []
    ∧ Options.SetFilterPolicy ⟨7⟩ none []
        = [⟨.rocksdb_options_set_filter_policy, [.ptr 7, .ptr 0]⟩] := by
  decide

/-! ### Size setters -/

theorem toCSizeT_cast (a : Arch) (v : Int) : ((toCSizeT a v : Nat) : Int) = v % 2 ^ a.bits := by
  unfold toCSizeT wrapUnsigned
  apply Int.toNat_of_nonneg
  apply Int.emod_nonneg
  cases a <;> simp [Arch.bits]

/-- C18: for every value `v` of the host `int`, each setter that converts with
`C.size_t` makes exactly one native call, and passes `v` modulo `2 ^ w` to it,
`w` being the width of `size_t`: `v` itself when `v` is not negative and
`2 ^ w + v` when it is; no value is rejected. -/
theorem size_setter_wraps (s : SizeSetter) (a : Arch) (o : Options) (w : World) (v : Int)
    (hv : InGoInt a v) :
    ∃ (fn : NativeFn) (n : Nat), s.run a o v w = w ++ [⟨fn, [.ptr o.Opt, .size_t n]⟩]
      ∧ (n : Int) = v % 2 ^ a.bits
      ∧ (0 ≤ v → (n : Int) = v)
      ∧ (v < 0 → (n : Int) = 2 ^ a.bits + v) := by
  have key : ∃ fn, s.run a o v w = w ++ [⟨fn, [.ptr o.Opt, .size_t (toCSizeT a v)]⟩] := by
    cases s <;> exact ⟨_, rfl⟩
  obtain ⟨fn, hfn⟩ := key
  refine ⟨fn, toCSizeT a v, hfn, toCSizeT_cast a v, ?_, ?_⟩
  · intro h0
    rw [toCSizeT_cast]
    unfold InGoInt at hv
    cases a <;> simp [Arch.bits] at hv ⊢ <;> omega
  · intro h0
    rw [toCSizeT_cast]
    unfold InGoInt at hv
    cases a <;> simp [Arch.bits] at hv ⊢ <;> omega

theorem size_setter_wraps_witness :
    InGoInt .bits64 (-1)
    ∧ (∃ (fn : NativeFn) (n : Nat), SizeSetter.run .SetWriteBufferSize .bits64 ⟨7⟩ (-1) []
          = [] ++ [⟨fn, [.ptr 7, .size_t n]⟩]
        ∧ (n : Int) = -1 % 2 ^ Arch.bits64.bits
        ∧ ((0 : Int) ≤ -1 → (n : Int) = -1)
        ∧ ((-1 : Int) < 0 → (n : Int) = 2 ^ Arch.bits64.bits + -1))
    ∧ Options.SetWriteBufferSize .bits64 ⟨7⟩ (-1) []
        = [⟨.rocksdb_options_set_write_buffer_size, [.ptr 7, .size_t 18446744073709551615]⟩] :=
  ⟨by decide, size_setter_wraps .SetWriteBufferSize .bits64 ⟨7⟩ [] (-1) (by decide), by decide⟩

/-! ### The two encodings of a boolean -/

/-- C19: `ucharToBool uc` is false exactly when `uc = 0`, every other byte
decodes to true, and for a byte `uc` that is `2` or more
`boolToUchar (ucharToBool uc)` is `1`, which differs from `uc`. -/
theorem ucharToBool_normalises :
    (∀ uc : Nat, ucharToBool uc = false ↔ uc = 0)
    ∧ (∀ uc : Nat, uc ≠ 0 → ucharToBool uc = true)
    ∧ (∀ uc : Nat, 2 ≤ uc →
        boolToUchar (ucharToBool uc) = 1 ∧ boolToUchar (ucharToBool uc) ≠ uc) := by
  have h0 : toCUchar 0 = 0 := by decide
  have h1 : toCUchar 1 = 1 := by decide
  refine ⟨?_, ?_, ?_⟩
  · intro uc
    unfold ucharToBool
    rw [h0]
    by_cases h : uc = 0 <;> simp [h]
  · intro uc h
    unfold ucharToBool
    rw [h0]
    simp [h]
  · intro uc h
    have hne : uc ≠ 0 := by omega
    have ht : ucharToBool uc = true := by
      unfold ucharToBool
      rw [h0]
      simp [hne]
    rw [ht]
    have hb : boolToUchar true = 1 := by decide
    rw [hb]
    exact ⟨rfl, by omega⟩

/-- C20: the byte `boolToUchar b`, as a number, equals the integer `btoi b`. -/
theorem boolToUchar_eq_btoi (b : Bool) : ((boolToUchar b : Nat) : Int) = btoi b := by
  cases b <;> decide

/-! ### Every setter method -/

theorem mem_allMethods (m : Method) : m ∈ allMethods := by
  cases m <;> decide

theorem nodup_native : (allMethods.map Method.native).Nodup := by
  decide

theorem native_injective : Function.Injective Method.native := by
  intro x y h
  exact List.inj_on_of_nodup_map nodup_native (mem_allMethods x) (mem_allMethods y) h

/-- C11, as the code has it: every call of a setter method of `Options`,
`ReadOptions` or `WriteOptions` whose argument is not an empty array (the two
array setters) or a nil pointer (`SetEnv`, `SetCache`, `SetCacheCompressed`,
`SetUniversalCompactionOptions`) makes exactly one native call, of the native
setter of that method and on the pointer of the handle; a call of an array
setter with an empty array makes none; and two different setter methods never
have the same native setter. -/
theorem setter_call_one_native (a : Arch) (o : Options) (ro : ReadOptions)
    (wo : WriteOptions) (c : SetterCall) (w : World) :
    (c.unforwardable = false → ∃ args, c.run a o ro wo w
        = .done (w ++ [⟨c.method.native, .ptr (c.method.handle o ro wo) :: args⟩]))
    ∧ SetterCall.run a o ro wo (.Options_SetCompressionPerLevel []) w
        = .panicked .indexOutOfRange w
    ∧ SetterCall.run a o ro wo (.Options_SetMaxBytesForLevelMultiplierAdditional []) w
        = .panicked .indexOutOfRange w
    ∧ Function.Injective Method.native := by
  refine ⟨?_, rfl, rfl, native_injective⟩
  intro hc
  cases c
  case Options_SetEnv env =>
    cases env
    · exact absurd hc (by decide)
    · exact ⟨_, rfl⟩
  case Options_SetCache cache =>
    cases cache
    · exact absurd hc (by decide)
    · exact ⟨_, rfl⟩
  case Options_SetCacheCompressed cache =>
    cases cache
    · exact absurd hc (by decide)
    · exact ⟨_, rfl⟩
  case Options_SetUniversalCompactionOptions value =>
    cases value
    · exact absurd hc (by decide)
    · exact ⟨_, rfl⟩
  case Options_SetCompressionPerLevel value =>
    simp only [SetterCall.run, Options.SetCompressionPerLevel, fillLevels_make]
    cases value
    · exact absurd hc (by decide)
    · exact ⟨_, rfl⟩
  case Options_SetMaxBytesForLevelMultiplierAdditional value =>
    simp only [SetterCall.run, Options.SetMaxBytesForLevelMultiplierAdditional, fillLevels_make]
    cases value
    · exact absurd hc (by decide)
    · exact ⟨_, rfl⟩
  all_goals exact ⟨_, rfl⟩

theorem setter_call_one_native_witness :
    SetterCall.unforwardable (.Options_SetNumLevels 7) = false
    ∧ SetterCall.run .bits64 ⟨7⟩ ⟨8⟩ ⟨9⟩ (.Options_SetNumLevels 7) []
        = .done [⟨.rocksdb_options_set_num_levels, [.ptr 7, .int 7]⟩]
    ∧ ∃ args, SetterCall.run .bits64 ⟨7⟩ ⟨8⟩ ⟨9⟩ (.ReadOptions_SetSnapshot none) []
        = .done ([] ++ [⟨Method.native .ReadOptions_SetSnapshot,
            .ptr (Method.handle ⟨7⟩ ⟨8⟩ ⟨9⟩ .ReadOptions_SetSnapshot) :: args⟩]) :=
  ⟨by decide, by decide,
    (setter_call_one_native .bits64 ⟨7⟩ ⟨8⟩ ⟨9⟩ (.ReadOptions_SetSnapshot none) []).1
      (by decide)⟩

/-- C11, as stated, fails: the call `SetCompressionPerLevel` with an empty
slice is a call of a setter method, and it makes no native call. -/
theorem setter_call_without_native_call :
    SetterCall.run .bits64 ⟨7⟩ ⟨8⟩ ⟨9⟩ (.Options_SetCompressionPerLevel []) []
      = .panicked .indexOutOfRange []
    ∧ (SetterCall.run .bits64 ⟨7⟩ ⟨8⟩ ⟨9⟩ (.Options_SetCompressionPerLevel []) []).world
      = [] := by
  decide

/-! ### Memtable representations -/

theorem memtable_run_append (a : Arch) (o : Options) (c : MemtableCall) (w : World) :
    c.run a o w = w ++ c.run a o [] := by
  cases c <;> rfl

theorem memtable_run_single (a : Arch) (o : Options) (c : MemtableCall) :
    ∃ call, c.run a o [] = [call] ∧ call.selects = some (o.Opt, c.chosen a) := by
  cases c <;> exact ⟨_, rfl, rfl⟩

theorem runMemtableCalls_trace (a : Arch) (o : Options) (cs : List MemtableCall) :
    ∀ w : World, runMemtableCalls a o cs w = w ++ (cs.map (fun c => c.run a o [])).flatten := by
  induction cs with
  | nil => intro w; simp [runMemtableCalls]
  | cons c cs ih =>
    intro w
    have h := ih (c.run a o w)
    simp only [runMemtableCalls, List.foldl_cons] at h ⊢
    rw [h, memtable_run_append a o c w]
    simp

/-- C12: for every sequence of calls of `SetMemtableVectorRep`,
`SetHashSkipListRep`, `SetHashLinkListRep` and `SetPlainTableFactory` on one
`Options`, no call is rejected: each makes its one native call, in order,
whatever was called before; and after a sequence that ends with the call `c`
the representation selected in the native object is the one `c` chooses: the
representation its method is named after, with the arguments of that call. -/
theorem memtable_last_write_wins (a : Arch) (o : Options) (cs : List MemtableCall)
    (c : MemtableCall) (w : World) :
    runMemtableCalls a o (cs ++ [c]) w
      = w ++ ((cs ++ [c]).map (fun c => c.run a o [])).flatten
    ∧ (runMemtableCalls a o (cs ++ [c]) w).length = w.length + (cs ++ [c]).length
    ∧ (runMemtableCalls a o (cs ++ [c]) w).selectedRep o.Opt = some (c.chosen a) := by
  have hlen : ∀ c : MemtableCall, (c.run a o []).length = 1 := by
    intro c; cases c <;> rfl
  have hjoin : ∀ l : List MemtableCall,
      ((l.map (fun c => c.run a o [])).flatten).length = l.length := by
    intro l
    induction l with
    | nil => rfl
    | cons x xs ih => simp [hlen x, ih]; omega
  refine ⟨runMemtableCalls_trace a o _ w, ?_, ?_⟩
  · rw [runMemtableCalls_trace, List.length_append, hjoin]
  · rw [runMemtableCalls_trace]
    obtain ⟨call, hcall, hsel⟩ := memtable_run_single a o c
    have hsplit : w ++ ((cs ++ [c]).map (fun c => c.run a o [])).flatten
        = (w ++ (cs.map (fun c => c.run a o [])).flatten) ++ c.run a o [] := by
      simp
    rw [hsplit]
    generalize w ++ (cs.map (fun c => c.run a o [])).flatten = pre
    rw [hcall]
    simp [World.selectedRep, hsel]

/-! ### Release -/

theorem set_of_getElem? {α : Type} (l : List α) (i : Nat) (x : α) (h : l[i]? = some x) :
    l.set i x = l := by
  apply List.ext_getElem?
  intro n
  by_cases hn : i = n
  · subst hn
    rw [List.getElem?_set_self (List.getElem?_eq_some_iff.mp h).1, h]
  · rw [List.getElem?_set_ne hn]

/-- C14: `Close` does not change the handle: after `Close` on an `Options`,
`ReadOptions` or `WriteOptions` the field `Opt` of the handle holds the value
it held before, and `Close` through a pointer leaves every handle of the heap
as it was. -/
theorem close_keeps_handles (h : Handles) (r : HandleRef) (o : Options)
    (ro : ReadOptions) (wo : WriteOptions) (w : World) :
    (o.Close w).1.Opt = o.Opt ∧ (ro.Close w).1.Opt = ro.Opt ∧ (wo.Close w).1.Opt = wo.Opt
    ∧ (h.close r w).1 = h := by
  refine ⟨rfl, rfl, rfl, ?_⟩
  cases r with
  | options i =>
    simp only [Handles.close]
    split
    · rfl
    · next x hx => simp [Options.Close, set_of_getElem? _ _ _ hx]
  | readOptions i =>
    simp only [Handles.close]
    split
    · rfl
    · next x hx => simp [ReadOptions.Close, set_of_getElem? _ _ _ hx]
  | writeOptions i =>
    simp only [Handles.close]
    split
    · rfl
    · next x hx => simp [WriteOptions.Close, set_of_getElem? _ _ _ hx]

/-- C15, as the code has it: every `Close` reaches the native destroy function:
a sequence of `n` calls of `Close` on one `Options`, `ReadOptions` or
`WriteOptions` makes `n` native destroy calls on the pointer of the handle. -/
theorem close_every_time (n : Nat) (o : Options) (ro : ReadOptions) (wo : WriteOptions)
    (w : World) :
    (o.closeTimes n w).2 = w ++ List.replicate n ⟨.rocksdb_options_destroy, [.ptr o.Opt]⟩
    ∧ (ro.closeTimes n w).2
        = w ++ List.replicate n ⟨.rocksdb_readoptions_destroy, [.ptr ro.Opt]⟩
    ∧ (wo.closeTimes n w).2
        = w ++ List.replicate n ⟨.rocksdb_writeoptions_destroy, [.ptr wo.Opt]⟩ := by
  induction n generalizing w with
  | zero => simp [Options.closeTimes, ReadOptions.closeTimes, WriteOptions.closeTimes]
  | succ n ih =>
    refine ⟨?_, ?_, ?_⟩
    · rw [Options.closeTimes]
      simp only [Options.Close]
      rw [(ih _).1]
      simp [C.call, List.replicate_succ]
    · rw [ReadOptions.closeTimes]
      simp only [ReadOptions.Close]
      rw [(ih _).2.1]
      simp [C.call, List.replicate_succ]
    · rw [WriteOptions.closeTimes]
      simp only [WriteOptions.Close]
      rw [(ih _).2.2]
      simp [C.call, List.replicate_succ]

/-- C15, as stated, fails: two calls of `Close` on one `Options` both reach
the native destroy function, with the same pointer. -/
theorem close_twice_destroys_twice :
    (Options.closeTimes ⟨7⟩ 2 []).2
      = [⟨.rocksdb_options_destroy, [.ptr 7]⟩, ⟨.rocksdb_options_destroy, [.ptr 7]⟩]
    ∧ ((Options.closeTimes ⟨7⟩ 2 []).2.filter
        (fun c => c = ⟨.rocksdb_options_destroy, [.ptr 7]⟩)).length = 2 := by
  decide

/-! ### The database handle -/

/-- C16: on an open database, `Put(wo, k, v)` succeeds and a following
`Get(ro, k)` with a snapshot-free `ReadOptions` returns `v`, for all byte
strings `k` and `v`, the non-empty ones and `k = v` among them. -/
theorem put_then_get (db : DB) (wo : WriteOptions) (ro : ReadOptions) (k v : List Nat)
    (hopen : db.state = .isOpen) :
    ∃ db', db.Put wo k v = some db' ∧ db'.Get ro none k = .value v := by
  refine ⟨{ db with records := (k, v) :: db.records.filter (fun r => r.1 != k) }, ?_, ?_⟩
  · simp [DB.Put, hopen]
  · simp [DB.Get, hopen]

theorem put_then_get_witness :
    (DB.mk .isOpen [([107], [1])]).state = .isOpen
    ∧ ∃ db', (DB.mk .isOpen [([107], [1])]).Put ⟨9⟩ [107] [107] = some db'
      ∧ db'.Get ⟨8⟩ none [107] = .value [107] :=
  ⟨rfl, put_then_get (DB.mk .isOpen [([107], [1])]) ⟨9⟩ ⟨8⟩ [107] [107] rfl⟩

end Rocksgo
